import Mathlib

/-!
Verification of the decryption state machine of `ts-it-crypto`
(src/crypto/decryption.ts) against its natural-language specification.

The decryption pipeline is embedded shallowly.  External collaborators
(the `jose` JOSE primitives, `JSON.parse`, `Buffer` base64 decoding, the
log model classes and the injected user resolver) are modelled as an
explicit oracle record `Env`; every theorem quantifies over all oracle
behaviours, so it holds in particular for the real implementations.
-/

/-- Model of a JavaScript value as produced by `JSON.parse` and mutated by
the normalisation code (`undefined` models the JavaScript `undefined`). -/
inductive JsVal where
  | undefined : JsVal
  | null : JsVal
  | bool (b : Bool) : JsVal
  | num (n : Int) : JsVal
  | str (s : String) : JsVal
  | arr (elems : List JsVal) : JsVal
  | obj (fields : List (String × JsVal)) : JsVal

/-- JavaScript `key in obj` on an object value (the source only applies it
to the object returned by `JSON.parse` of the JWE). -/
def JsVal.hasKey (v : JsVal) (k : String) : Bool :=
  match v with
  | .obj fields => fields.any (fun f => f.1 = k)
  | _ => false

/-- JavaScript property read `obj[k]`: `undefined` when the key is absent. -/
def JsVal.getField (v : JsVal) (k : String) : JsVal :=
  match v with
  | .obj fields =>
      match fields.find? (fun f => f.1 = k) with
      | some f => f.2
      | none => .undefined
  | _ => .undefined

/-- JavaScript property write `obj[k] = x` for a key that is not yet
present: the new key is appended (JS insertion order).  The source only
assigns `recipients` after checking that the key is absent. -/
def JsVal.addField (v : JsVal) (k : String) (x : JsVal) : JsVal :=
  match v with
  | .obj fields => .obj (fields ++ [(k, x)])
  | v => v

/-- Flattened JWS object: fields `payload`, `protected`, `signature`
(`protected` is a Lean keyword, rendered `prot`). -/
structure FlatJWS where
  payload : String
  prot : String
  signature : String
deriving DecidableEq

/-- Modelled from the spec (§3): the AccessLog record.  The class
`src/logs/accessLog.ts` is not included under src/. -/
structure AccessLog where
  monitor : String
  owner : String
  tool : String
  justification : String
  timestamp : Int
  accessKind : String
  dataTypes : List String
  id : String
deriving DecidableEq

/-- Modelled from the spec (§3): the SharedLog record; `log` is the
embedded signed AccessLog (a flattened JWS).  The class
`src/logs/sharedLog.ts` is not included under src/. -/
structure SharedLog where
  log : FlatJWS
  creator : String
  owner : String
  recipients : List String
  id : String
deriving DecidableEq

/-- Modelled from the spec (§4.2): a SignedLog wraps the flattened JWS of
an AccessLog.  The class `src/logs/signedLog.ts` is not included under
src/. -/
structure SignedLog where
  jws : FlatJWS
deriving DecidableEq

/-- Modelled from the spec (§3): a RemoteUser as consumed by the
decryption service (id, verification certificate handle, monitor flag). -/
structure RemoteUser where
  id : String
  verificationCertificate : String
  isMonitor : Bool
deriving DecidableEq

/-- Modelled from the spec (§3): the fields of an AuthenticatedUser that
`DecryptionService.decrypt` reads (its id and its decryption key). -/
structure AuthenticatedUser where
  id : String
  decryptionKey : String
deriving DecidableEq

/-- The decoded JWE protected header as read by `decrypt`: it accesses
`protectedHeader.recipients` and `protectedHeader.owner` and (per the doc
comment in the source) the header also carries `enc` and the shared-header
JWS, which the decryption path never reads. -/
structure ProtectedHeader where
  enc : String
  sharedHeader : Option FlatJWS
  owner : String
  recipients : List String
deriving DecidableEq

/-- Result of `jose.generalDecrypt` followed by `TextDecoder().decode`:
the decrypted plaintext and the authenticated protected header. -/
structure GeneralDecryptResult where
  plaintext : String
  protectedHeader : Option ProtectedHeader
deriving DecidableEq

/-- Oracle record for the external collaborators of the decryption
service.  Each field models one external call site of
`src/crypto/decryption.ts`; errors carry the thrown message. -/
structure Env where
  /-- `JSON.parse` applied to the JWE string. -/
  jsonParse : String → Except String JsVal
  /-- `jose.generalDecrypt` (over the normalised JWE object and the
  receiver's decryption key) composed with `TextDecoder().decode`. -/
  generalDecrypt : JsVal → String → Except String GeneralDecryptResult
  /-- `JSON.parse(plaintext) as FlattenedJWSInput` together with the field
  accesses on the resulting object. -/
  parseFlattenedJws : String → Except String FlatJWS
  /-- `Buffer.from(s, 'base64').toString()` (lenient, never throws). -/
  atobDecode : String → String
  /-- `SharedLog.fromJson` (class not under src/, contract per spec §4.1). -/
  sharedLogFromJson : String → Except String SharedLog
  /-- `SharedLog.fromBytes` (class not under src/, contract per spec §4.1). -/
  sharedLogFromBytes : String → Except String SharedLog
  /-- `AccessLog.fromJson` (class not under src/, contract per spec §4.1). -/
  accessLogFromJson : String → Except String AccessLog
  /-- `AccessLog.fromBytes` (class not under src/, contract per spec §4.1). -/
  accessLogFromBytes : String → Except String AccessLog
  /-- `jose.flattenedVerify`: the verified payload bytes on success. -/
  flattenedVerify : FlatJWS → String → Except String String

/-- JavaScript `Array.prototype.toString` on an array of strings: the
elements joined with commas (used by the recipients comparison at line 74
of decryption.ts). -/
def jsArrayToString (xs : List String) : String :=
  String.intercalate "," xs

/-- Lines 43-50 of decryption.ts: if the parsed JWE has no `recipients`
key, synthesise `recipients = [{ encrypted_key, header }]` from the
top-level fields; otherwise leave the object unchanged. -/
def normalizeJwe (jweObj : JsVal) : JsVal :=
  if jweObj.hasKey "recipients" then jweObj
  else
    jweObj.addField "recipients"
      (.arr [.obj [("encrypted_key", jweObj.getField "encrypted_key"),
                   ("header", jweObj.getField "header")]])

/-- `DecryptionService._claimedCreator`: base64-decode the SharedLog JWS
payload without verifying, parse it, return its `creator`. -/
def claimedCreator (env : Env) (jwsSharedLog : FlatJWS) : Except String String := do
  let rawJson := env.atobDecode jwsSharedLog.payload
  let sharedLog ← env.sharedLogFromJson rawJson
  return sharedLog.creator

/-- `DecryptionService._claimedMonitor`: base64-decode the AccessLog JWS
payload without verifying, parse it, return its `monitor`. -/
def claimedMonitor (env : Env) (jwsAccessLog : FlatJWS) : Except String String := do
  let decoded := env.atobDecode jwsAccessLog.payload
  let accessLog ← env.accessLogFromJson decoded
  return accessLog.monitor

/-- `DecryptionService._verifySharedLog`: one `try` block covering both
the signature verification and the parse of the verified payload; either
failure is rethrown as the same error. -/
def verifySharedLog (env : Env) (jwsSharedLog : FlatJWS) (sender : RemoteUser) :
    Except String SharedLog :=
  match env.flattenedVerify jwsSharedLog sender.verificationCertificate with
  | .ok payload =>
      match env.sharedLogFromBytes payload with
      | .ok sl => .ok sl
      | .error _ => .error "Could not verify SharedLog."
  | .error _ => .error "Could not verify SharedLog."

/-- `DecryptionService._verifyAccessLog`: the monitor-flag guard precedes
the `try` block; the `try` block covers the signature verification and the
parse of the verified payload. -/
def verifyAccessLog (env : Env) (jwsAccessLog : FlatJWS) (sender : RemoteUser) :
    Except String AccessLog :=
  if ¬ sender.isMonitor then
    .error "Claimed monitor is not authorized to sign logs."
  else
    match env.flattenedVerify jwsAccessLog sender.verificationCertificate with
    | .ok payload =>
        match env.accessLogFromBytes payload with
        | .ok al => .ok al
        | .error _ => .error "Could not verify AccessLog."
    | .error _ => .error "Could not verify AccessLog."

/-- Lines 73-103 of decryption.ts: the cross-layer checks against a
present protected header, ending in `new SignedLog(jwsAccessLog)` where
`jwsAccessLog = sharedLog.log`. -/
def crossLayerChecksSome (ph : ProtectedHeader) (sharedLog : SharedLog)
    (accessLog : AccessLog) (receiver : AuthenticatedUser) : Except String SignedLog :=
  if jsArrayToString sharedLog.recipients ≠ jsArrayToString ph.recipients then
    .error "Malformed data: Sets of recipients are not equal!"
  else if receiver.id ∉ sharedLog.recipients then
    .error "Malformed data: Decrypting user not specified in recipients!"
  else if accessLog.owner ≠ ph.owner then
    .error "Malformed data: The specified owners are not equal!"
  else if ¬ (sharedLog.creator = accessLog.monitor ∨ sharedLog.creator = accessLog.owner) then
    .error "Malformed data: Only the owner or the monitor of the AccessLog are allowed to share."
  else if sharedLog.creator = accessLog.monitor ∧
      (sharedLog.recipients.length ≠ 1 ∨ sharedLog.recipients.head? ≠ some accessLog.owner) then
    .error "Malformed data: Monitors can only share the data with the owner of the log."
  else
    .ok ⟨sharedLog.log⟩

/-- Lines 69-103 of decryption.ts: the protected-header presence check at
line 70 followed by the cross-layer checks. -/
def crossLayerChecks (decryptionResult : GeneralDecryptResult) (sharedLog : SharedLog)
    (accessLog : AccessLog) (receiver : AuthenticatedUser) : Except String SignedLog :=
  match decryptionResult.protectedHeader with
  | none => .error "Malformed data: Missing protected header!"
  | some ph => crossLayerChecksSome ph sharedLog accessLog receiver

/-- Lines 52-103 of decryption.ts: everything after the JWE has been
AEAD-decrypted. -/
def decryptPost (env : Env) (decryptionResult : GeneralDecryptResult)
    (receiver : AuthenticatedUser) (fetchUser : String → Except String RemoteUser) :
    Except String SignedLog := do
  let jwsSharedLog ← env.parseFlattenedJws decryptionResult.plaintext
  let creatorId ← claimedCreator env jwsSharedLog
  let creator ← fetchUser creatorId
  let sharedLog ← verifySharedLog env jwsSharedLog creator
  let monitorId ← claimedMonitor env sharedLog.log
  let monitor ← fetchUser monitorId
  let accessLog ← verifyAccessLog env sharedLog.log monitor
  crossLayerChecks decryptionResult sharedLog accessLog receiver

/-- The generic JWE decryption applied to an already-normalised JWE
object, followed by the rest of the pipeline. -/
def decryptFromObj (env : Env) (jweObj : JsVal) (receiver : AuthenticatedUser)
    (fetchUser : String → Except String RemoteUser) : Except String SignedLog := do
  let decryptionResult ← env.generalDecrypt jweObj receiver.decryptionKey
  decryptPost env decryptionResult receiver fetchUser

/-- `DecryptionService.decrypt` (decryption.ts lines 28-104): parse the
JWE string, apply the single-recipient normalisation, AEAD-decrypt,
verify the two inner JWS layers and enforce the cross-layer checks. -/
def decrypt (env : Env) (jwe : String) (receiver : AuthenticatedUser)
    (fetchUser : String → Except String RemoteUser) : Except String SignedLog := do
  let jweObj ← env.jsonParse jwe
  decryptFromObj env (normalizeJwe jweObj) receiver fetchUser

/-- Modelled from the spec (§4.2): `SignedLog.extract` base64url-decodes
the JWS payload and parses it as an AccessLog, without verifying.  The
class `src/logs/signedLog.ts` is not included under src/. -/
def SignedLog.extract (env : Env) (s : SignedLog) : Except String AccessLog :=
  env.accessLogFromJson (env.atobDecode s.jws.payload)

/-! ## Decomposition of a decrypt run that reaches the cross-layer checks -/

theorem except_ok_bind {α β : Type} (a : α) (f : α → Except String β) :
    (Except.ok a : Except String α) >>= f = f a := rfl

theorem except_error_bind {α β : Type} (e : String) (f : α → Except String β) :
    (Except.error e : Except String α) >>= f = (Except.error e : Except String β) := rfl

/-- A decrypt call reaches the cross-layer checks (line 70 of
decryption.ts) with decryption result `res`, verified SharedLog `sl` and
verified AccessLog `al`: every stage before the checks succeeded. -/
def ReachesCrossLayer (env : Env) (jwe : String) (receiver : AuthenticatedUser)
    (fetchUser : String → Except String RemoteUser)
    (res : GeneralDecryptResult) (sl : SharedLog) (al : AccessLog) : Prop :=
  ∃ jweObj jwsSharedLog creatorId creator monitorId monitor,
    env.jsonParse jwe = .ok jweObj ∧
    env.generalDecrypt (normalizeJwe jweObj) receiver.decryptionKey = .ok res ∧
    env.parseFlattenedJws res.plaintext = .ok jwsSharedLog ∧
    claimedCreator env jwsSharedLog = .ok creatorId ∧
    fetchUser creatorId = .ok creator ∧
    verifySharedLog env jwsSharedLog creator = .ok sl ∧
    claimedMonitor env sl.log = .ok monitorId ∧
    fetchUser monitorId = .ok monitor ∧
    verifyAccessLog env sl.log monitor = .ok al

/-- A run that reaches the cross-layer checks computes exactly
`crossLayerChecks` on the reached state. -/
theorem decrypt_eq_crossLayerChecks {env : Env} {jwe : String}
    {receiver : AuthenticatedUser} {fetchUser : String → Except String RemoteUser}
    {res : GeneralDecryptResult} {sl : SharedLog} {al : AccessLog}
    (h : ReachesCrossLayer env jwe receiver fetchUser res sl al) :
    decrypt env jwe receiver fetchUser = crossLayerChecks res sl al receiver := by
  obtain ⟨jweObj, jwsS, cid, cu, mid, mu, h1, h2, h3, h4, h5, h6, h7, h8, h9⟩ := h
  simp only [decrypt, decryptFromObj, decryptPost, h1, h2, h3, h4, h5, h6, h7, h8, h9,
    except_ok_bind]

/-! ## Helper lemmas about the cross-layer checks -/

theorem list_ne_singleton_iff {xs : List String} {a : String} :
    xs ≠ [a] ↔ (xs.length ≠ 1 ∨ xs.head? ≠ some a) := by
  cases xs with
  | nil => simp
  | cons b t =>
      cases t with
      | nil => simp
      | cons c t2 => simp

/-- A message of the `Malformed data` error kind: the stable prefix shared
by all cross-layer check failures (spec §7). -/
def isMalformedDataError (m : String) : Bool :=
  ("Malformed data: ".data).isPrefixOf m.data

theorem crossLayerChecks_someEq {res : GeneralDecryptResult} {sl : SharedLog}
    {al : AccessLog} {r : AuthenticatedUser} {ph : ProtectedHeader}
    (hph : res.protectedHeader = some ph) :
    crossLayerChecks res sl al r = crossLayerChecksSome ph sl al r := by
  unfold crossLayerChecks
  rw [hph]

theorem clc_none {res : GeneralDecryptResult} {sl : SharedLog} {al : AccessLog}
    {r : AuthenticatedUser} (hph : res.protectedHeader = none) :
    crossLayerChecks res sl al r = .error "Malformed data: Missing protected header!" := by
  unfold crossLayerChecks
  rw [hph]

theorem clc_sets {res : GeneralDecryptResult} {sl : SharedLog} {al : AccessLog}
    {r : AuthenticatedUser} {ph : ProtectedHeader} (hph : res.protectedHeader = some ph)
    (h1 : jsArrayToString sl.recipients ≠ jsArrayToString ph.recipients) :
    crossLayerChecks res sl al r = .error "Malformed data: Sets of recipients are not equal!" := by
  rw [crossLayerChecks_someEq hph]
  unfold crossLayerChecksSome
  rw [if_pos h1]

theorem clc_member {res : GeneralDecryptResult} {sl : SharedLog} {al : AccessLog}
    {r : AuthenticatedUser} {ph : ProtectedHeader} (hph : res.protectedHeader = some ph)
    (h1 : jsArrayToString sl.recipients = jsArrayToString ph.recipients)
    (h2 : r.id ∉ sl.recipients) :
    crossLayerChecks res sl al r =
      .error "Malformed data: Decrypting user not specified in recipients!" := by
  rw [crossLayerChecks_someEq hph]
  unfold crossLayerChecksSome
  rw [if_neg (fun hc => hc h1), if_pos h2]

theorem clc_owner {res : GeneralDecryptResult} {sl : SharedLog} {al : AccessLog}
    {r : AuthenticatedUser} {ph : ProtectedHeader} (hph : res.protectedHeader = some ph)
    (h1 : jsArrayToString sl.recipients = jsArrayToString ph.recipients)
    (h2 : r.id ∈ sl.recipients) (h3 : al.owner ≠ ph.owner) :
    crossLayerChecks res sl al r =
      .error "Malformed data: The specified owners are not equal!" := by
  rw [crossLayerChecks_someEq hph]
  unfold crossLayerChecksSome
  rw [if_neg (fun hc => hc h1), if_neg (fun hc => hc h2), if_pos h3]

theorem clc_creator {res : GeneralDecryptResult} {sl : SharedLog} {al : AccessLog}
    {r : AuthenticatedUser} {ph : ProtectedHeader} (hph : res.protectedHeader = some ph)
    (h1 : jsArrayToString sl.recipients = jsArrayToString ph.recipients)
    (h2 : r.id ∈ sl.recipients) (h3 : al.owner = ph.owner)
    (h4 : ¬ (sl.creator = al.monitor ∨ sl.creator = al.owner)) :
    crossLayerChecks res sl al r =
      .error "Malformed data: Only the owner or the monitor of the AccessLog are allowed to share." := by
  rw [crossLayerChecks_someEq hph]
  unfold crossLayerChecksSome
  rw [if_neg (fun hc => hc h1), if_neg (fun hc => hc h2), if_neg (fun hc => hc h3),
    if_pos h4]

theorem clc_monitor {res : GeneralDecryptResult} {sl : SharedLog} {al : AccessLog}
    {r : AuthenticatedUser} {ph : ProtectedHeader} (hph : res.protectedHeader = some ph)
    (h1 : jsArrayToString sl.recipients = jsArrayToString ph.recipients)
    (h2 : r.id ∈ sl.recipients) (h3 : al.owner = ph.owner)
    (h4 : sl.creator = al.monitor) (h5 : sl.recipients ≠ [al.owner]) :
    crossLayerChecks res sl al r =
      .error "Malformed data: Monitors can only share the data with the owner of the log." := by
  rw [crossLayerChecks_someEq hph]
  unfold crossLayerChecksSome
  rw [if_neg (fun hc => hc h1), if_neg (fun hc => hc h2), if_neg (fun hc => hc h3),
    if_neg (fun hc => hc (Or.inl h4)), if_pos ⟨h4, list_ne_singleton_iff.mp h5⟩]

theorem clc_ok {res : GeneralDecryptResult} {sl : SharedLog} {al : AccessLog}
    {r : AuthenticatedUser} {ph : ProtectedHeader} (hph : res.protectedHeader = some ph)
    (h1 : jsArrayToString sl.recipients = jsArrayToString ph.recipients)
    (h2 : r.id ∈ sl.recipients) (h3 : al.owner = ph.owner)
    (h4 : sl.creator = al.monitor ∨ sl.creator = al.owner)
    (h5 : sl.creator = al.monitor → sl.recipients = [al.owner]) :
    crossLayerChecks res sl al r = .ok ⟨sl.log⟩ := by
  rw [crossLayerChecks_someEq hph]
  unfold crossLayerChecksSome
  rw [if_neg (fun hc => hc h1), if_neg (fun hc => hc h2), if_neg (fun hc => hc h3),
    if_neg (fun hc => hc h4),
    if_neg (fun hc => list_ne_singleton_iff.mpr hc.2 (h5 hc.1))]

/-- Master case analysis of the cross-layer checks: exactly one branch of
the source's check sequence applies. -/
theorem crossLayerChecks_cases (res : GeneralDecryptResult) (sl : SharedLog)
    (al : AccessLog) (r : AuthenticatedUser) :
    (res.protectedHeader = none ∧
      crossLayerChecks res sl al r = .error "Malformed data: Missing protected header!") ∨
    ∃ ph, res.protectedHeader = some ph ∧
      ((jsArrayToString sl.recipients ≠ jsArrayToString ph.recipients ∧
         crossLayerChecks res sl al r =
           .error "Malformed data: Sets of recipients are not equal!") ∨
       (jsArrayToString sl.recipients = jsArrayToString ph.recipients ∧
         r.id ∉ sl.recipients ∧
         crossLayerChecks res sl al r =
           .error "Malformed data: Decrypting user not specified in recipients!") ∨
       (jsArrayToString sl.recipients = jsArrayToString ph.recipients ∧
         r.id ∈ sl.recipients ∧ al.owner ≠ ph.owner ∧
         crossLayerChecks res sl al r =
           .error "Malformed data: The specified owners are not equal!") ∨
       (jsArrayToString sl.recipients = jsArrayToString ph.recipients ∧
         r.id ∈ sl.recipients ∧ al.owner = ph.owner ∧
         ¬ (sl.creator = al.monitor ∨ sl.creator = al.owner) ∧
         crossLayerChecks res sl al r =
           .error "Malformed data: Only the owner or the monitor of the AccessLog are allowed to share.") ∨
       (jsArrayToString sl.recipients = jsArrayToString ph.recipients ∧
         r.id ∈ sl.recipients ∧ al.owner = ph.owner ∧
         sl.creator = al.monitor ∧ sl.recipients ≠ [al.owner] ∧
         crossLayerChecks res sl al r =
           .error "Malformed data: Monitors can only share the data with the owner of the log.") ∨
       (jsArrayToString sl.recipients = jsArrayToString ph.recipients ∧
         r.id ∈ sl.recipients ∧ al.owner = ph.owner ∧
         (sl.creator = al.monitor ∨ sl.creator = al.owner) ∧
         (sl.creator = al.monitor → sl.recipients = [al.owner]) ∧
         crossLayerChecks res sl al r = .ok ⟨sl.log⟩)) := by
  cases hph : res.protectedHeader with
  | none => exact Or.inl ⟨rfl, clc_none hph⟩
  | some ph =>
      refine Or.inr ⟨ph, rfl, ?_⟩
      by_cases h1 : jsArrayToString sl.recipients = jsArrayToString ph.recipients
      · by_cases h2 : r.id ∈ sl.recipients
        · by_cases h3 : al.owner = ph.owner
          · by_cases h4 : sl.creator = al.monitor ∨ sl.creator = al.owner
            · by_cases h5 : sl.creator = al.monitor
              · by_cases h6 : sl.recipients = [al.owner]
                · exact Or.inr (Or.inr (Or.inr (Or.inr (Or.inr
                    ⟨h1, h2, h3, h4, fun _ => h6, clc_ok hph h1 h2 h3 h4 fun _ => h6⟩))))
                · exact Or.inr (Or.inr (Or.inr (Or.inr (Or.inl
                    ⟨h1, h2, h3, h5, h6, clc_monitor hph h1 h2 h3 h5 h6⟩))))
              · exact Or.inr (Or.inr (Or.inr (Or.inr (Or.inr
                  ⟨h1, h2, h3, h4, fun hc => absurd hc h5,
                    clc_ok hph h1 h2 h3 h4 fun hc => absurd hc h5⟩))))
            · exact Or.inr (Or.inr (Or.inr (Or.inl ⟨h1, h2, h3, h4, clc_creator hph h1 h2 h3 h4⟩)))
          · exact Or.inr (Or.inr (Or.inl ⟨h1, h2, h3, clc_owner hph h1 h2 h3⟩))
        · exact Or.inr (Or.inl ⟨h1, h2, clc_member hph h1 h2⟩)
      · exact Or.inl ⟨h1, clc_sets hph h1⟩

/-- Every rejection of the cross-layer checks is a `Malformed data` error. -/
theorem crossLayerChecks_error_malformed {res : GeneralDecryptResult} {sl : SharedLog}
    {al : AccessLog} {r : AuthenticatedUser} {m : String}
    (h : crossLayerChecks res sl al r = .error m) :
    isMalformedDataError m = true := by
  rcases crossLayerChecks_cases res sl al r with ⟨-, he⟩ |
    ⟨ph, -, ⟨-, he⟩ | ⟨-, -, he⟩ | ⟨-, -, -, he⟩ | ⟨-, -, -, -, he⟩ | ⟨-, -, -, -, -, he⟩ |
      ⟨-, -, -, -, -, he⟩⟩ <;>
    rw [he] at h <;>
    first
      | exact Except.noConfusion h
      | (injection h with h; subst h; decide)

/-! ## Shared concrete scaffolding for witnesses and counterexamples -/

/-- An environment whose oracles deterministically succeed with the given
stage outcomes, used to instantiate theorems on concrete runs. -/
def constEnv (res : GeneralDecryptResult) (sl : SharedLog) (al : AccessLog) : Env where
  jsonParse := fun _ => .ok (.obj [("recipients", .arr [])])
  generalDecrypt := fun _ _ => .ok res
  parseFlattenedJws := fun _ => .ok ⟨"pl", "pr", "sg"⟩
  atobDecode := fun s => s
  sharedLogFromJson := fun _ => .ok sl
  sharedLogFromBytes := fun _ => .ok sl
  accessLogFromJson := fun _ => .ok al
  accessLogFromBytes := fun _ => .ok al
  flattenedVerify := fun j _ => .ok j.payload

/-- A resolver that knows every id and flags every user as monitor. -/
def allMonitorsFetch : String → Except String RemoteUser :=
  fun s => .ok ⟨s, "cert", true⟩

theorem constEnv_reaches (res : GeneralDecryptResult) (sl : SharedLog) (al : AccessLog)
    (jwe : String) (receiver : AuthenticatedUser) :
    ReachesCrossLayer (constEnv res sl al) jwe receiver allMonitorsFetch res sl al :=
  ⟨.obj [("recipients", .arr [])], ⟨"pl", "pr", "sg"⟩, sl.creator, ⟨sl.creator, "cert", true⟩,
    al.monitor, ⟨al.monitor, "cert", true⟩, rfl, rfl, rfl, rfl, rfl, rfl, rfl, rfl, rfl⟩

/-- Inversion of a successful pass through the cross-layer checks. -/
theorem clc_ok_inv {res : GeneralDecryptResult} {sl : SharedLog} {al : AccessLog}
    {r : AuthenticatedUser} {v : SignedLog}
    (hok : crossLayerChecks res sl al r = .ok v) :
    ∃ ph, res.protectedHeader = some ph ∧
      jsArrayToString sl.recipients = jsArrayToString ph.recipients ∧
      r.id ∈ sl.recipients ∧
      al.owner = ph.owner ∧
      (sl.creator = al.monitor ∨ sl.creator = al.owner) ∧
      (sl.creator = al.monitor → sl.recipients = [al.owner]) ∧
      v = ⟨sl.log⟩ := by
  rcases crossLayerChecks_cases res sl al r with ⟨-, he⟩ |
    ⟨ph, hph, ⟨-, he⟩ | ⟨-, -, he⟩ | ⟨-, -, -, he⟩ | ⟨-, -, -, -, he⟩ | ⟨-, -, -, -, -, he⟩ |
      ⟨h1, h2, h3, h4, h5, he⟩⟩
  all_goals rw [he] at hok
  any_goals exact Except.noConfusion hok
  injection hok with hok
  exact ⟨ph, hph, h1, h2, h3, h4, h5, hok.symm⟩

/-! ## C1: monitor sharing restriction -/

def cexAl1 : AccessLog := ⟨"m", "o", "tool", "jus", 30, "direct", ["email"], "aid1"⟩

def cexSl1 : SharedLog := ⟨⟨"alp", "p", "s"⟩, "m", "o", ["a"], "sid1"⟩

def cexRes1 : GeneralDecryptResult := ⟨"pt", some ⟨"A256GCM", none, "o", ["b"]⟩⟩

def cexRecv1 : AuthenticatedUser := ⟨"a", "k"⟩

/-- C1 counterexample: a decrypt call that reaches the cross-layer checks
with a verified SharedLog and AccessLog, `sharedLog.creator =
accessLog.monitor` and `sharedLog.recipients ≠ [accessLog.owner]`, yet
fails with the recipients-mismatch message rather than the claimed
monitor-restriction message: the claim's "in every other case" error
clause is false as stated. -/
theorem monitor_share_error_counterexample :
    ReachesCrossLayer (constEnv cexRes1 cexSl1 cexAl1) "jwe" cexRecv1 allMonitorsFetch
      cexRes1 cexSl1 cexAl1 ∧
    cexSl1.creator = cexAl1.monitor ∧
    cexSl1.recipients ≠ [cexAl1.owner] ∧
    decrypt (constEnv cexRes1 cexSl1 cexAl1) "jwe" cexRecv1 allMonitorsFetch =
      .error "Malformed data: Sets of recipients are not equal!" ∧
    "Malformed data: Sets of recipients are not equal!" ≠
      "Malformed data: Monitors can only share the data with the owner of the log." :=
  ⟨constEnv_reaches cexRes1 cexSl1 cexAl1 "jwe" cexRecv1, rfl, by decide, rfl, by decide⟩

/-- C1 (amended): for every decrypt call that reaches the cross-layer
checks with a verified SharedLog and AccessLog and with
`sharedLog.creator = accessLog.monitor`, decrypt succeeds only when
`sharedLog.recipients` is exactly the one-element sequence
`[accessLog.owner]`; in every other case decrypt fails with a
`Malformed data` error, and the message is exactly 'Malformed data:
Monitors can only share the data with the owner of the log.' whenever the
preceding cross-layer checks pass (protected header present, recipient
renderings equal, decrypting user listed, owners equal). -/
theorem monitor_share_restriction
    (env : Env) (jwe : String) (receiver : AuthenticatedUser)
    (fetchUser : String → Except String RemoteUser)
    (res : GeneralDecryptResult) (sl : SharedLog) (al : AccessLog)
    (hreach : ReachesCrossLayer env jwe receiver fetchUser res sl al)
    (hcm : sl.creator = al.monitor) :
    (∀ out, decrypt env jwe receiver fetchUser = .ok out → sl.recipients = [al.owner]) ∧
    (sl.recipients ≠ [al.owner] →
      (∃ m, decrypt env jwe receiver fetchUser = .error m ∧ isMalformedDataError m = true) ∧
      (∀ ph, res.protectedHeader = some ph →
        jsArrayToString sl.recipients = jsArrayToString ph.recipients →
        receiver.id ∈ sl.recipients →
        al.owner = ph.owner →
        decrypt env jwe receiver fetchUser =
          .error "Malformed data: Monitors can only share the data with the owner of the log.")) := by
  have hd := decrypt_eq_crossLayerChecks hreach
  constructor
  · intro out hok
    rw [hd] at hok
    obtain ⟨ph, -, -, -, -, -, h5, -⟩ := clc_ok_inv hok
    exact h5 hcm
  · intro hne
    constructor
    · rw [hd]
      cases hE : crossLayerChecks res sl al receiver with
      | error m => exact ⟨m, rfl, crossLayerChecks_error_malformed hE⟩
      | ok v =>
          obtain ⟨ph, -, -, -, -, -, h5, -⟩ := clc_ok_inv hE
          exact absurd (h5 hcm) hne
    · intro ph hph h1 h2 h3
      rw [hd]
      exact clc_monitor hph h1 h2 h3 hcm hne

def witAl1 : AccessLog := ⟨"m", "o", "tool", "jus", 30, "direct", ["email"], "aid2"⟩

def witSl1 : SharedLog := ⟨⟨"alp", "p", "s"⟩, "m", "o", ["a", "b"], "sid2"⟩

def witPh1 : ProtectedHeader := ⟨"A256GCM", none, "o", ["a", "b"]⟩

def witRes1 : GeneralDecryptResult := ⟨"pt", some witPh1⟩

/-- Witness instantiating the C1 theorem on a concrete run whose earlier
cross-layer checks pass. -/
theorem monitor_share_restriction_witness :
    ReachesCrossLayer (constEnv witRes1 witSl1 witAl1) "jwe" cexRecv1 allMonitorsFetch
      witRes1 witSl1 witAl1 ∧
    witSl1.creator = witAl1.monitor ∧
    witSl1.recipients ≠ [witAl1.owner] ∧
    decrypt (constEnv witRes1 witSl1 witAl1) "jwe" cexRecv1 allMonitorsFetch =
      .error "Malformed data: Monitors can only share the data with the owner of the log." :=
  ⟨constEnv_reaches witRes1 witSl1 witAl1 "jwe" cexRecv1, rfl, by decide,
    ((monitor_share_restriction (constEnv witRes1 witSl1 witAl1) "jwe" cexRecv1
        allMonitorsFetch witRes1 witSl1 witAl1
        (constEnv_reaches witRes1 witSl1 witAl1 "jwe" cexRecv1) rfl).2
      (by decide)).2 witPh1 rfl rfl (by decide) rfl⟩

/-! ## C2: creator authorisation -/

def cexAl2 : AccessLog := ⟨"m", "o", "tool", "jus", 30, "direct", ["email"], "aid3"⟩

def cexSl2 : SharedLog := ⟨⟨"alp", "p", "s"⟩, "x", "o", ["a"], "sid3"⟩

def cexRes2 : GeneralDecryptResult := ⟨"pt", some ⟨"A256GCM", none, "o", ["b"]⟩⟩

/-- C2 counterexample: a decrypt call that reaches the cross-layer checks
with a creator that is neither the owner nor the monitor, yet fails with
the recipients-mismatch message rather than the claimed
creator-authorisation message: the claim's error clause is false as
stated. -/
theorem creator_authorisation_counterexample :
    ReachesCrossLayer (constEnv cexRes2 cexSl2 cexAl2) "jwe" cexRecv1 allMonitorsFetch
      cexRes2 cexSl2 cexAl2 ∧
    ¬ (cexSl2.creator = cexAl2.owner ∨ cexSl2.creator = cexAl2.monitor) ∧
    decrypt (constEnv cexRes2 cexSl2 cexAl2) "jwe" cexRecv1 allMonitorsFetch =
      .error "Malformed data: Sets of recipients are not equal!" ∧
    "Malformed data: Sets of recipients are not equal!" ≠
      "Malformed data: Only the owner or the monitor of the AccessLog are allowed to share." :=
  ⟨constEnv_reaches cexRes2 cexSl2 cexAl2 "jwe" cexRecv1, by decide, rfl, by decide⟩

/-- C2 (amended): for every decrypt call that reaches the cross-layer
checks, decrypt returns a SignedLog only if `sharedLog.creator` equals
`accessLog.owner` or `accessLog.monitor`; if the creator equals neither,
decrypt fails with a `Malformed data` error, and the message is exactly
'Malformed data: Only the owner or the monitor of the AccessLog are
allowed to share.' whenever the preceding cross-layer checks pass
(protected header present, recipient renderings equal, decrypting user
listed, owners equal). -/
theorem creator_authorisation
    (env : Env) (jwe : String) (receiver : AuthenticatedUser)
    (fetchUser : String → Except String RemoteUser)
    (res : GeneralDecryptResult) (sl : SharedLog) (al : AccessLog)
    (hreach : ReachesCrossLayer env jwe receiver fetchUser res sl al) :
    (∀ out, decrypt env jwe receiver fetchUser = .ok out →
      sl.creator = al.owner ∨ sl.creator = al.monitor) ∧
    (¬ (sl.creator = al.owner ∨ sl.creator = al.monitor) →
      (∃ m, decrypt env jwe receiver fetchUser = .error m ∧ isMalformedDataError m = true) ∧
      (∀ ph, res.protectedHeader = some ph →
        jsArrayToString sl.recipients = jsArrayToString ph.recipients →
        receiver.id ∈ sl.recipients →
        al.owner = ph.owner →
        decrypt env jwe receiver fetchUser =
          .error "Malformed data: Only the owner or the monitor of the AccessLog are allowed to share.")) := by
  have hd := decrypt_eq_crossLayerChecks hreach
  constructor
  · intro out hok
    rw [hd] at hok
    obtain ⟨ph, -, -, -, -, h4, -, -⟩ := clc_ok_inv hok
    exact h4.symm
  · intro hno
    constructor
    · rw [hd]
      cases hE : crossLayerChecks res sl al receiver with
      | error m => exact ⟨m, rfl, crossLayerChecks_error_malformed hE⟩
      | ok v =>
          obtain ⟨ph, -, -, -, -, h4, -, -⟩ := clc_ok_inv hE
          exact absurd h4.symm hno
    · intro ph hph h1 h2 h3
      rw [hd]
      exact clc_creator hph h1 h2 h3 fun hc => hno hc.symm

def witSl2 : SharedLog := ⟨⟨"alp", "p", "s"⟩, "x", "o", ["a", "b"], "sid4"⟩

/-- Witness instantiating the C2 theorem on a concrete run whose earlier
cross-layer checks pass. -/
theorem creator_authorisation_witness :
    ReachesCrossLayer (constEnv witRes1 witSl2 witAl1) "jwe" cexRecv1 allMonitorsFetch
      witRes1 witSl2 witAl1 ∧
    ¬ (witSl2.creator = witAl1.owner ∨ witSl2.creator = witAl1.monitor) ∧
    decrypt (constEnv witRes1 witSl2 witAl1) "jwe" cexRecv1 allMonitorsFetch =
      .error "Malformed data: Only the owner or the monitor of the AccessLog are allowed to share." :=
  ⟨constEnv_reaches witRes1 witSl2 witAl1 "jwe" cexRecv1, by decide,
    ((creator_authorisation (constEnv witRes1 witSl2 witAl1) "jwe" cexRecv1
        allMonitorsFetch witRes1 witSl2 witAl1
        (constEnv_reaches witRes1 witSl2 witAl1 "jwe" cexRecv1)).2
      (by decide)).2 witPh1 rfl rfl (by decide) rfl⟩

/-! ## C3: recipient binding of the decrypting user -/

def cexSl3 : SharedLog := ⟨⟨"alp", "p", "s"⟩, "o", "o", ["a"], "sid5"⟩

def cexRecv3 : AuthenticatedUser := ⟨"c", "k"⟩

/-- C3 counterexample: a decrypt call in which the JWE decrypts and both
inner signatures verify and whose decrypting user is not among
`sharedLog.recipients`, yet which fails with the recipients-mismatch
message rather than the claimed recipient-binding message: the claim's
error clause is false as stated. -/
theorem recipient_binding_counterexample :
    ReachesCrossLayer (constEnv cexRes2 cexSl3 cexAl2) "jwe" cexRecv3 allMonitorsFetch
      cexRes2 cexSl3 cexAl2 ∧
    cexRecv3.id ∉ cexSl3.recipients ∧
    decrypt (constEnv cexRes2 cexSl3 cexAl2) "jwe" cexRecv3 allMonitorsFetch =
      .error "Malformed data: Sets of recipients are not equal!" ∧
    "Malformed data: Sets of recipients are not equal!" ≠
      "Malformed data: Decrypting user not specified in recipients!" :=
  ⟨constEnv_reaches cexRes2 cexSl3 cexAl2 "jwe" cexRecv3, by decide, rfl, by decide⟩

/-- C3 (amended): for every decrypt call in which the JWE decrypts and
both inner signatures verify, if the decrypting receiver's id is not an
element of `sharedLog.recipients` then decrypt never returns a SignedLog
and fails with a `Malformed data` error — even though the JWE decrypted
with the receiver's key — and the message is exactly 'Malformed data:
Decrypting user not specified in recipients!' whenever the protected
header is present and the recipient renderings agree. -/
theorem recipient_binding
    (env : Env) (jwe : String) (receiver : AuthenticatedUser)
    (fetchUser : String → Except String RemoteUser)
    (res : GeneralDecryptResult) (sl : SharedLog) (al : AccessLog)
    (hreach : ReachesCrossLayer env jwe receiver fetchUser res sl al)
    (hmem : receiver.id ∉ sl.recipients) :
    (∀ out, decrypt env jwe receiver fetchUser ≠ .ok out) ∧
    (∃ m, decrypt env jwe receiver fetchUser = .error m ∧ isMalformedDataError m = true) ∧
    (∀ ph, res.protectedHeader = some ph →
      jsArrayToString sl.recipients = jsArrayToString ph.recipients →
      decrypt env jwe receiver fetchUser =
        .error "Malformed data: Decrypting user not specified in recipients!") := by
  have hd := decrypt_eq_crossLayerChecks hreach
  refine ⟨?_, ?_, ?_⟩
  · intro out hok
    rw [hd] at hok
    obtain ⟨ph, -, -, h2, -, -, -, -⟩ := clc_ok_inv hok
    exact hmem h2
  · rw [hd]
    cases hE : crossLayerChecks res sl al receiver with
    | error m => exact ⟨m, rfl, crossLayerChecks_error_malformed hE⟩
    | ok v =>
        obtain ⟨ph, -, -, h2, -, -, -, -⟩ := clc_ok_inv hE
        exact absurd h2 hmem
  · intro ph hph h1
    rw [hd]
    exact clc_member hph h1 hmem

def witSl3 : SharedLog := ⟨⟨"alp", "p", "s"⟩, "o", "o", ["a", "b"], "sid6"⟩

/-- Witness instantiating the C3 theorem on a concrete run whose
recipient sequences agree. -/
theorem recipient_binding_witness :
    ReachesCrossLayer (constEnv witRes1 witSl3 witAl1) "jwe" cexRecv3 allMonitorsFetch
      witRes1 witSl3 witAl1 ∧
    cexRecv3.id ∉ witSl3.recipients ∧
    decrypt (constEnv witRes1 witSl3 witAl1) "jwe" cexRecv3 allMonitorsFetch =
      .error "Malformed data: Decrypting user not specified in recipients!" :=
  ⟨constEnv_reaches witRes1 witSl3 witAl1 "jwe" cexRecv3, by decide,
    (recipient_binding (constEnv witRes1 witSl3 witAl1) "jwe" cexRecv3 allMonitorsFetch
        witRes1 witSl3 witAl1 (constEnv_reaches witRes1 witSl3 witAl1 "jwe" cexRecv3)
        (by decide)).2.2 witPh1 rfl rfl⟩

/-! ## C4: recipients comparison is a string comparison of joined sequences -/

def cexPh4 : ProtectedHeader := ⟨"A256GCM", none, "o", ["a", "b"]⟩

def cexRes4 : GeneralDecryptResult := ⟨"pt", some cexPh4⟩

def cexSl4 : SharedLog := ⟨⟨"alp", "p", "s"⟩, "o", "o", ["a,b"], "sid7"⟩

def cexRecv4 : AuthenticatedUser := ⟨"a,b", "k"⟩

/-- C4 counterexample: the recipients check is a comparison of the
comma-joined renderings, not of the sequences: with
`sharedLog.recipients = ["a,b"]` and `protectedHeader.recipients =
["a", "b"]` the sequences differ, yet the check passes and decrypt
succeeds — refuting the claimed "if and only if ... equal as sequences"
and the claimed failure in that case. -/
theorem recipients_sequence_counterexample :
    ReachesCrossLayer (constEnv cexRes4 cexSl4 cexAl2) "jwe" cexRecv4 allMonitorsFetch
      cexRes4 cexSl4 cexAl2 ∧
    cexRes4.protectedHeader = some cexPh4 ∧
    cexSl4.recipients ≠ cexPh4.recipients ∧
    jsArrayToString cexSl4.recipients = jsArrayToString cexPh4.recipients ∧
    decrypt (constEnv cexRes4 cexSl4 cexAl2) "jwe" cexRecv4 allMonitorsFetch =
      .ok ⟨cexSl4.log⟩ :=
  ⟨constEnv_reaches cexRes4 cexSl4 cexAl2 "jwe" cexRecv4, rfl, by decide, rfl, rfl⟩

/-- C4 (amended): for every decrypt call that reaches the recipients
cross-layer check, the check fails exactly when the JavaScript `toString`
renderings (the comma-joined strings) of `sharedLog.recipients` and
`protectedHeader.recipients` differ, in which case decrypt fails with
'Malformed data: Sets of recipients are not equal!'; the comparison is on
the joined strings — still order-sensitive — and equality of the
sequences implies the check passes. -/
theorem recipients_sequence_check
    (env : Env) (jwe : String) (receiver : AuthenticatedUser)
    (fetchUser : String → Except String RemoteUser)
    (res : GeneralDecryptResult) (sl : SharedLog) (al : AccessLog) (ph : ProtectedHeader)
    (hreach : ReachesCrossLayer env jwe receiver fetchUser res sl al)
    (hph : res.protectedHeader = some ph) :
    (decrypt env jwe receiver fetchUser =
        .error "Malformed data: Sets of recipients are not equal!" ↔
      jsArrayToString sl.recipients ≠ jsArrayToString ph.recipients) ∧
    (sl.recipients = ph.recipients →
      decrypt env jwe receiver fetchUser ≠
        .error "Malformed data: Sets of recipients are not equal!") := by
  have hd := decrypt_eq_crossLayerChecks hreach
  have hiff : decrypt env jwe receiver fetchUser =
      .error "Malformed data: Sets of recipients are not equal!" ↔
      jsArrayToString sl.recipients ≠ jsArrayToString ph.recipients := by
    constructor
    · intro he hj
      rw [hd] at he
      rcases crossLayerChecks_cases res sl al receiver with ⟨hn, -⟩ |
        ⟨ph', hph', ⟨hne, -⟩ | ⟨-, -, he2⟩ | ⟨-, -, -, he2⟩ | ⟨-, -, -, -, he2⟩ |
          ⟨-, -, -, -, -, he2⟩ | ⟨-, -, -, -, -, he2⟩⟩
      · rw [hph] at hn
        exact Option.noConfusion hn
      · rw [hph] at hph'
        injection hph' with hph'
        subst hph'
        exact hne hj
      · rw [he2] at he
        injection he with he
        exact absurd he (by decide)
      · rw [he2] at he
        injection he with he
        exact absurd he (by decide)
      · rw [he2] at he
        injection he with he
        exact absurd he (by decide)
      · rw [he2] at he
        injection he with he
        exact absurd he (by decide)
      · rw [he2] at he
        exact Except.noConfusion he
    · intro hj
      rw [hd]
      exact clc_sets hph hj
  exact ⟨hiff, fun hseq he => (hiff.mp he) (by rw [hseq])⟩

/-- Witness instantiating the C4 theorem on a concrete run with differing
joined renderings. -/
theorem recipients_sequence_check_witness :
    decrypt (constEnv cexRes2 cexSl3 cexAl2) "jwe" cexRecv1 allMonitorsFetch =
      .error "Malformed data: Sets of recipients are not equal!" :=
  (recipients_sequence_check (constEnv cexRes2 cexSl3 cexAl2) "jwe" cexRecv1
      allMonitorsFetch cexRes2 cexSl3 cexAl2 ⟨"A256GCM", none, "o", ["b"]⟩
      (constEnv_reaches cexRes2 cexSl3 cexAl2 "jwe" cexRecv1) rfl).1.mpr (by decide)

/-! ## C5: unauthorised monitor rejected before AccessLog verification -/

/-- C5: for every decrypt call in which the outer JWE decrypts, the
SharedLog signature verifies, and the resolver maps the AccessLog's
claimed monitor to a RemoteUser whose `isMonitor` flag is false, decrypt
fails with the UnauthorisedMonitor error 'Claimed monitor is not
authorized to sign logs.'; moreover the rejection happens before any
attempt to verify the AccessLog signature: replacing the signature
verification oracle by any alternative that agrees on the already-checked
SharedLog JWS leaves the outcome unchanged. -/
theorem unauthorised_monitor
    (env : Env) (jwe : String) (receiver : AuthenticatedUser)
    (fetchUser : String → Except String RemoteUser)
    (jweObj : JsVal) (res : GeneralDecryptResult) (jwsS : FlatJWS)
    (creatorId : String) (creator : RemoteUser) (sl : SharedLog)
    (monitorId : String) (monitor : RemoteUser)
    (h1 : env.jsonParse jwe = .ok jweObj)
    (h2 : env.generalDecrypt (normalizeJwe jweObj) receiver.decryptionKey = .ok res)
    (h3 : env.parseFlattenedJws res.plaintext = .ok jwsS)
    (h4 : claimedCreator env jwsS = .ok creatorId)
    (h5 : fetchUser creatorId = .ok creator)
    (h6 : verifySharedLog env jwsS creator = .ok sl)
    (h7 : claimedMonitor env sl.log = .ok monitorId)
    (h8 : fetchUser monitorId = .ok monitor)
    (h9 : monitor.isMonitor = false) :
    decrypt env jwe receiver fetchUser =
      .error "Claimed monitor is not authorized to sign logs." ∧
    ∀ vf : FlatJWS → String → Except String String,
      (∀ c, vf jwsS c = env.flattenedVerify jwsS c) →
      decrypt { env with flattenedVerify := vf } jwe receiver fetchUser =
        .error "Claimed monitor is not authorized to sign logs." := by
  have hva : ∀ e : Env, verifyAccessLog e sl.log monitor =
      .error "Claimed monitor is not authorized to sign logs." := by
    intro e
    unfold verifyAccessLog
    rw [if_pos (by simp [h9])]
  constructor
  · simp only [decrypt, decryptFromObj, decryptPost, h1, h2, h3, h4, h5, h6, h7, h8,
      hva, except_ok_bind, except_error_bind]
  · intro vf hagree
    have h6' : verifySharedLog { env with flattenedVerify := vf } jwsS creator = .ok sl := by
      unfold verifySharedLog
      dsimp only
      rw [hagree creator.verificationCertificate]
      unfold verifySharedLog at h6
      exact h6
    simp only [decrypt, decryptFromObj, decryptPost]
    simp only [h1, h2, h3, except_ok_bind]
    have hcc : claimedCreator { env with flattenedVerify := vf } jwsS = .ok creatorId := h4
    have hcm : claimedMonitor { env with flattenedVerify := vf } sl.log = .ok monitorId := h7
    simp only [hcc, h5, h6', hcm, h8, hva, except_ok_bind, except_error_bind]

/-- A resolver that knows every id and flags no user as monitor. -/
def noMonitorsFetch : String → Except String RemoteUser :=
  fun s => .ok ⟨s, "cert", false⟩

/-- Witness instantiating the C5 theorem on a concrete run. -/
theorem unauthorised_monitor_witness :
    decrypt (constEnv cexRes1 cexSl1 cexAl1) "jwe" cexRecv1 noMonitorsFetch =
      .error "Claimed monitor is not authorized to sign logs." :=
  (unauthorised_monitor (constEnv cexRes1 cexSl1 cexAl1) "jwe" cexRecv1 noMonitorsFetch
      (.obj [("recipients", .arr [])]) cexRes1 ⟨"pl", "pr", "sg"⟩ cexSl1.creator
      ⟨cexSl1.creator, "cert", false⟩ cexSl1 cexAl1.monitor ⟨cexAl1.monitor, "cert", false⟩
      rfl rfl rfl rfl rfl rfl rfl rfl rfl).1

/-! ## C6: unconditional single-recipient normalisation -/

/-- C6: for every input string that JSON-parses to an object without a
'recipients' key, decrypt proceeds exactly as if the object contained
`recipients = [{ encrypted_key, header }]` built from the object's
top-level 'encrypted_key' and 'header' fields; for every object that
already has a 'recipients' key the object is passed to the generic JWE
decrypter unchanged.  The normalisation is applied unconditionally before
decryption. -/
theorem normalisation_behaviour
    (env : Env) (jwe : String) (receiver : AuthenticatedUser)
    (fetchUser : String → Except String RemoteUser)
    (o : JsVal) (hparse : env.jsonParse jwe = .ok o) :
    (o.hasKey "recipients" = false →
      decrypt env jwe receiver fetchUser =
        decryptFromObj env
          (o.addField "recipients"
            (.arr [.obj [("encrypted_key", o.getField "encrypted_key"),
                         ("header", o.getField "header")]]))
          receiver fetchUser) ∧
    (o.hasKey "recipients" = true →
      decrypt env jwe receiver fetchUser = decryptFromObj env o receiver fetchUser) := by
  constructor
  · intro hk
    simp only [decrypt, hparse, except_ok_bind, normalizeJwe, hk, Bool.false_eq_true,
      if_false]
  · intro hk
    simp only [decrypt, hparse, except_ok_bind, normalizeJwe, hk, if_true]

def witEnvC6a : Env :=
  { constEnv cexRes1 cexSl1 cexAl1 with
    jsonParse := fun _ => .ok (.obj [("encrypted_key", .str "ek"), ("header", .str "hd")]) }

/-- Witness instantiating the C6 theorem on two concrete parsed objects,
one without and one with a 'recipients' key. -/
theorem normalisation_behaviour_witness :
    (decrypt witEnvC6a "jwe" cexRecv1 allMonitorsFetch =
      decryptFromObj witEnvC6a
        ((JsVal.obj [("encrypted_key", .str "ek"), ("header", .str "hd")]).addField
          "recipients"
          (.arr [.obj [("encrypted_key",
              (JsVal.obj [("encrypted_key", .str "ek"), ("header", .str "hd")]).getField
                "encrypted_key"),
            ("header",
              (JsVal.obj [("encrypted_key", .str "ek"), ("header", .str "hd")]).getField
                "header")]]))
        cexRecv1 allMonitorsFetch) ∧
    (decrypt (constEnv cexRes1 cexSl1 cexAl1) "jwe" cexRecv1 allMonitorsFetch =
      decryptFromObj (constEnv cexRes1 cexSl1 cexAl1) (.obj [("recipients", .arr [])])
        cexRecv1 allMonitorsFetch) :=
  ⟨(normalisation_behaviour witEnvC6a "jwe" cexRecv1 allMonitorsFetch
      (.obj [("encrypted_key", .str "ek"), ("header", .str "hd")]) rfl).1 rfl,
    (normalisation_behaviour (constEnv cexRes1 cexSl1 cexAl1) "jwe" cexRecv1
      allMonitorsFetch (.obj [("recipients", .arr [])]) rfl).2 rfl⟩

/-! ## C10: objects lacking all three keys still reach the AEAD step -/

theorem find?_none_of_any_false {α : Type} (p : α → Bool) (l : List α)
    (h : l.any p = false) : l.find? p = none := by
  induction l with
  | nil => rfl
  | cons a t ih =>
      simp only [List.any_cons, Bool.or_eq_false_iff] at h
      rw [List.find?_cons_of_neg _ (by simp [h.1])]
      exact ih h.2

theorem JsVal.getField_eq_undefined {v : JsVal} {k : String} (h : v.hasKey k = false) :
    v.getField k = .undefined := by
  cases v with
  | obj fields =>
      simp only [JsVal.hasKey] at h
      simp only [JsVal.getField]
      rw [find?_none_of_any_false _ _ h]
  | undefined => rfl
  | null => rfl
  | bool b => rfl
  | num n => rfl
  | str s => rfl
  | arr xs => rfl

/-- C10: for every input string that JSON-parses to an object containing
none of the keys 'recipients', 'encrypted_key' and 'header', decrypt does
not reject at the Parse stage: the normalisation synthesises a one-element
recipients list whose `encrypted_key` and `header` fields are `undefined`
(the JavaScript value of the absent properties), the object reaches the
generic JWE decrypter, and a failure of the AEAD decryption step is the
error that surfaces. -/
theorem absent_fields_normalisation
    (env : Env) (jwe : String) (receiver : AuthenticatedUser)
    (fetchUser : String → Except String RemoteUser)
    (o : JsVal) (hparse : env.jsonParse jwe = .ok o)
    (hk1 : o.hasKey "recipients" = false)
    (hk2 : o.hasKey "encrypted_key" = false)
    (hk3 : o.hasKey "header" = false) :
    decrypt env jwe receiver fetchUser =
      decryptFromObj env
        (o.addField "recipients"
          (.arr [.obj [("encrypted_key", .undefined), ("header", .undefined)]]))
        receiver fetchUser ∧
    ∀ e, env.generalDecrypt
        (o.addField "recipients"
          (.arr [.obj [("encrypted_key", .undefined), ("header", .undefined)]]))
        receiver.decryptionKey = .error e →
      decrypt env jwe receiver fetchUser = .error e := by
  have hnorm : normalizeJwe o =
      o.addField "recipients"
        (.arr [.obj [("encrypted_key", .undefined), ("header", .undefined)]]) := by
    unfold normalizeJwe
    rw [hk1]
    simp only [Bool.false_eq_true, if_false]
    rw [JsVal.getField_eq_undefined hk2, JsVal.getField_eq_undefined hk3]
  constructor
  · simp only [decrypt, hparse, except_ok_bind, hnorm]
  · intro e he
    simp only [decrypt, hparse, except_ok_bind, hnorm, decryptFromObj, he,
      except_error_bind]

def witEnvC10 : Env :=
  { constEnv cexRes1 cexSl1 cexAl1 with
    jsonParse := fun _ => .ok (.obj [("iv", .str "v")]),
    generalDecrypt := fun _ _ => .error "decryption operation failed" }

/-- Witness instantiating the C10 theorem on a concrete object lacking
all three keys, with an AEAD step that fails. -/
theorem absent_fields_normalisation_witness :
    decrypt witEnvC10 "jwe" cexRecv1 allMonitorsFetch =
      .error "decryption operation failed" :=
  (absent_fields_normalisation witEnvC10 "jwe" cexRecv1 allMonitorsFetch
      (.obj [("iv", .str "v")]) rfl rfl rfl rfl).2
    "decryption operation failed" rfl

/-! ## C9: the shared-header JWS is never read during decryption -/

/-- Overwrite the shared-header field carried in the protected header of
an AEAD decryption result. -/
def setSharedHeader (sh : Option FlatJWS) (r : GeneralDecryptResult) :
    GeneralDecryptResult :=
  { r with protectedHeader := r.protectedHeader.map fun p => { p with sharedHeader := sh } }

theorem clc_setSharedHeader (sh : Option FlatJWS) (res : GeneralDecryptResult)
    (sl : SharedLog) (al : AccessLog) (r : AuthenticatedUser) :
    crossLayerChecks (setSharedHeader sh res) sl al r = crossLayerChecks res sl al r := by
  unfold crossLayerChecks setSharedHeader
  cases hph : res.protectedHeader with
  | none => rfl
  | some p => rfl

theorem decryptPost_setSharedHeader (env : Env) (sh : Option FlatJWS)
    (res : GeneralDecryptResult) (r : AuthenticatedUser)
    (fetchUser : String → Except String RemoteUser) :
    decryptPost env (setSharedHeader sh res) r fetchUser =
      decryptPost env res r fetchUser := by
  simp only [decryptPost]
  rw [show (setSharedHeader sh res).plaintext = res.plaintext from rfl]
  cases env.parseFlattenedJws res.plaintext with
  | error e => rfl
  | ok jwsS =>
      simp only [except_ok_bind]
      cases claimedCreator env jwsS with
      | error e => rfl
      | ok cid =>
          simp only [except_ok_bind]
          cases fetchUser cid with
          | error e => rfl
          | ok cu =>
              simp only [except_ok_bind]
              cases verifySharedLog env jwsS cu with
              | error e => rfl
              | ok sl =>
                  simp only [except_ok_bind]
                  cases claimedMonitor env sl.log with
                  | error e => rfl
                  | ok mid =>
                      simp only [except_ok_bind]
                      cases fetchUser mid with
                      | error e => rfl
                      | ok mu =>
                          simp only [except_ok_bind]
                          cases verifyAccessLog env sl.log mu with
                          | error e => rfl
                          | ok al =>
                              simp only [except_ok_bind]
                              exact clc_setSharedHeader sh res sl al r

/-- C9: the result of decrypt does not depend on the sharedHeader JWS
carried inside the AEAD-authenticated protected header: overriding that
field of the AEAD decryption result with any value leaves the outcome
(returned SignedLog or error) unchanged — the decryption path never reads
the shared-header JWS. -/
theorem sharedHeader_not_read
    (env : Env) (sh : Option FlatJWS) (jwe : String) (receiver : AuthenticatedUser)
    (fetchUser : String → Except String RemoteUser) :
    decrypt
      { env with
        generalDecrypt := fun o k => (env.generalDecrypt o k).map (setSharedHeader sh) }
      jwe receiver fetchUser =
    decrypt env jwe receiver fetchUser := by
  unfold decrypt
  cases hj : env.jsonParse jwe with
  | error e => rfl
  | ok o =>
      simp only [except_ok_bind]
      unfold decryptFromObj
      cases hg : env.generalDecrypt (normalizeJwe o) receiver.decryptionKey with
      | error e => simp only [hg, Except.map, except_error_bind]
      | ok res =>
          simp only [hg, Except.map, except_ok_bind]
          exact decryptPost_setSharedHeader
            { env with
              generalDecrypt := fun o k => (env.generalDecrypt o k).map (setSharedHeader sh) }
            sh res receiver fetchUser

/-! ## C8: SharedLog parse and signature failures are not distinguished -/

def cexEnvSig : Env :=
  { constEnv cexRes1 cexSl1 cexAl1 with
    flattenedVerify := fun _ _ => .error "bad signature" }

def cexEnvParse : Env :=
  { constEnv cexRes1 cexSl1 cexAl1 with
    sharedLogFromBytes := fun _ => .error "shape error" }

/-- C8 counterexample: a decrypt run whose SharedLog signature check fails
and a decrypt run whose signature check succeeds but whose verified
SharedLog payload fails to parse produce the identical error 'Could not
verify SharedLog.': the code does not preserve distinct
MalformedSharedLog / SharedLogSignatureInvalid kinds, and a parse failure
of the verified payload is reported exactly like a signature failure. -/
theorem sharedlog_error_kinds_counterexample :
    cexEnvSig.flattenedVerify ⟨"pl", "pr", "sg"⟩ "cert" = .error "bad signature" ∧
    decrypt cexEnvSig "jwe" cexRecv1 allMonitorsFetch =
      .error "Could not verify SharedLog." ∧
    cexEnvParse.flattenedVerify ⟨"pl", "pr", "sg"⟩ "cert" = .ok "pl" ∧
    cexEnvParse.sharedLogFromBytes "pl" = .error "shape error" ∧
    decrypt cexEnvParse "jwe" cexRecv1 allMonitorsFetch =
      .error "Could not verify SharedLog." :=
  ⟨rfl, rfl, rfl, rfl, rfl⟩

/-- C8 (amended): `_verifySharedLog` collapses its two failure modes into
one error: both a failing signature check and a verified payload that
fails to parse as a SharedLog are rethrown as the same 'Could not verify
SharedLog.'; the code does not distinguish a MalformedSharedLog kind from
a SharedLogSignatureInvalid kind. -/
theorem sharedlog_error_kinds
    (env : Env) (jws : FlatJWS) (sender : RemoteUser) :
    (∀ e, env.flattenedVerify jws sender.verificationCertificate = .error e →
      verifySharedLog env jws sender = .error "Could not verify SharedLog.") ∧
    (∀ p e, env.flattenedVerify jws sender.verificationCertificate = .ok p →
      env.sharedLogFromBytes p = .error e →
      verifySharedLog env jws sender = .error "Could not verify SharedLog.") := by
  constructor
  · intro e he
    unfold verifySharedLog
    rw [he]
  · intro p e hp he
    unfold verifySharedLog
    rw [hp]
    show (match env.sharedLogFromBytes p with
      | .ok sl => (.ok sl : Except String SharedLog)
      | .error _ => .error "Could not verify SharedLog.") =
        .error "Could not verify SharedLog."
    rw [he]

/-- Witness instantiating the C8 theorem on both failure modes. -/
theorem sharedlog_error_kinds_witness :
    verifySharedLog cexEnvSig ⟨"pl", "pr", "sg"⟩ ⟨"u", "cert", true⟩ =
      .error "Could not verify SharedLog." ∧
    verifySharedLog cexEnvParse ⟨"pl", "pr", "sg"⟩ ⟨"u", "cert", true⟩ =
      .error "Could not verify SharedLog." :=
  ⟨(sharedlog_error_kinds cexEnvSig ⟨"pl", "pr", "sg"⟩ ⟨"u", "cert", true⟩).1
      "bad signature" rfl,
    (sharedlog_error_kinds cexEnvParse ⟨"pl", "pr", "sg"⟩ ⟨"u", "cert", true⟩).2
      "pl" "shape error" rfl rfl⟩

/-! ## C7: the six compatibility fixture tokens -/

/-- Fixture token `goDecryptB` from src/src/__test__/compatibility.test.ts, verbatim. -/
def goDecryptB : String :=
  "\x7b\"protected\":\"eyJhbGciOiJFQ0RILUVTK0EyNTZLVyIsImVuYyI6IkEyNTZHQ00iLCJlcGsiOnsia3R5IjoiRUMiLCJjcnYiOiJQLTI1NiIsIngiOiIxaWZubjkwRFJxdEhHWEhyeHBhbC13NjZhemtBTERQU3hvNHF5RzRRdGhVIiwieSI6ImZVNGVEVUxmbFJldGQ2Z0MxZzJaTFYxMmFTeVl2dlZZVXgydzk4TjlRTGMifSwib3duZXIiOiJyZWNlaXZlciIsInJlY2lwaWVudHMiOlsicmVjZWl2ZXIiXX0\",\"encrypted_key\":\"UVgAzNy22Zr47bfxPGLgYmxMtYAIvRt85DWURqiw4wZRzNt8Tup5Ew\",\"iv\":\"cvz26Qr_Eri1eZ6i\",\"ciphertext\":\"VylfB2FMOBH-fhceN9-Mv4jcvwRZXV1TapHF4gm9ZrlLVhD4GxQHQbT-KfrMn3SJtx7-Q6MmQIRtwIdJVnvuFHpdfW3VFOy2gPMhoEKhu1NpAZIChl9T4Hj9cZZjNGCvYSaZ8Th8X0JjbzjVVU5MolKm15mCUm_owsBA1MGrQYbK0Pe086YHcxWv1iSm4oEL8Y2mriwFmAIWP3Xu-q2eNnDvuzNrV4hM81pvWCuFAO6QQyO6IWsd5mQ4gt2QIiNu9zIgpOEKpGUlUYL02VQqwEv2GGK3vIyCF6cXo1kRnbNRHVQg6bIW3O6TuCgo4jadmz0Ja7oUNnW2wgWreiBE7uAD55xMbs9B5ModlnbunonLYryV1jS6jd6uB6svyRYnZ8Zd-4OoJl8lx5B6ry2-5HqH_Jtuo2iXwlsurszweBOSNg4gA3lPar4_Zzfljf4oiQS615eq347vXSQB0lkmToqATNZjlywaj7VLF5Lii1fDSMUpI1JI0VTPphOw4mT7a3XSVDs45B5y_pQ5ROn2kCPSjrkpLGRGewMPZQGzCMj_AjOl9pkQmEsvl0a-jJpmLkVGjK1Tm3MaYz3Cr1-XyfP74QId6QMDZzuE6i8lmlOlf6NEe_OuOfA5Abf388u7xLkq3y3hvEetS_FHVbd7qumnGgK7teORtPxM4LsB6CG7HUkWPcX6LbcZuK7kIfsrD2Rsz3jqp8RRlWWNU0uwcdjwZDCaLVl24lq307vHzFtGiNs0xnzfggcUOcG_i-eUsDAdSNTs0yP-jvzwmOmjIDc0_7w2NA6fRa7XyQK-obEM3Dw9BnnyD9jpoH9NtGDqDPbtttFRV7druW-KXg4SZQ557Ch4CA1LcyipXsS7tUAZF3pHFRdHrmHqYB39KiZOqjd6HVnk70VzoTWh5_ZRUEfqmK8W1CCPnQ\",\"tag\":\"xh2lGFAM-8AK-39B-zaLzw\"\x7d"

/-- Fixture token `goDecryptAB` from src/src/__test__/compatibility.test.ts, verbatim. -/
def goDecryptAB : String :=
  "\x7b\"protected\":\"eyJlbmMiOiJBMjU2R0NNIiwib3duZXIiOiJyZWNlaXZlciIsInJlY2lwaWVudHMiOlsicmVjZWl2ZXIiLCJzZW5kZXIiXX0\",\"recipients\":[\x7b\"header\":\x7b\"alg\":\"ECDH-ES+A256KW\",\"epk\":\x7b\"kty\":\"EC\",\"crv\":\"P-256\",\"x\":\"rAEKSPYdJdJ6bHPYrobWCBP1bxgA4uq7rF_xm-5O51U\",\"y\":\"wLkRfalS1AmaYB29U7nkHzY4kKFhwA6rGO_GMinPwic\"\x7d\x7d,\"encrypted_key\":\"YT1kMwqtXDg4MRxb9Qgpje1SbkQtCdxJwkfd1BCdKd5jlAlR5dA-Vg\"\x7d,\x7b\"header\":\x7b\"alg\":\"ECDH-ES+A256KW\",\"epk\":\x7b\"kty\":\"EC\",\"crv\":\"P-256\",\"x\":\"aWmlj9hKxT-3oRzsDgqgdk9slceHuoGCt37vdfWM97g\",\"y\":\"B94CRu3_WGVy2hfVNQFRLyLbdYNTXloqRLoIQIBV-AA\"\x7d\x7d,\"encrypted_key\":\"BTvPWcvVsmW80x18aW6UPUXIkRAwoKhFu9Ma8IQ7UCeFsQ2OU_50gw\"\x7d],\"encrypted_key\":\"YT1kMwqtXDg4MRxb9Qgpje1SbkQtCdxJwkfd1BCdKd5jlAlR5dA-Vg\",\"iv\":\"aYanSN64oJp-MRN5\",\"ciphertext\":\"2iXDIW8b8GQ7Et2fO01RpnqV4ALfNBEipdhDrzSvNH98VQmm47RTuWtEclm_-OhtSBhqgHfshbmxlHwyTC4lHI-CGwmuMEuAR4G0586D8QllDenqGMgkaFl4a5oCInHkylxpWcWEr_Sv0uf0br4UpU3sLRLkyZQ5INKflRYkiu-umeN__xxNyKC4e8CD2waqk6u8IlBWX5dUTmEEDWtfDugNaPLZ0xzVWzTwLY5I_P23CFAjTAbBNFwJS6IyJU2HQz-i-pPMgRv2qJ2V6ikJ6KRy0FD_N9kSiHc3gwM3Wu6_PvV3b4nLW7lPeUG6BAOjfwXzvo1T-RwxD8ocqXKk8ctk8H5iKffGlSnugtnY5nBUl69hTPUzhfKL9dOG6QxAhMbkwZh79pofJJ6jx0eFxssDQ-eWFwIfAfMFeDGA9watJAs5VbMKF2jGm6huyxq8cMI3z5N5is9J7qB3R844vLTvHzx-2Qdcrd7x0t_Grk21_nXyCJr8oja4dH6kPVz5PgDPHvVqV4xpAwSQqFoSKlo3T65zkV3AQPGyPO3HFD129ZbNW34OS0plFGUONrL4zfiOqq8YZ7Vgt-1eo0BFnrD9yfjMNwwFr_41-h4_KXI7bAVtzq1kFelx_xmAc9tIEf8rr6yDRhfK6qOzQ-En2LgNl4J1G8WgtglYUUtbDh9dcN6vOwBxC2LB6YNUDebjsJ6c_NK1xcGcPQhObTa3XfIq4qrYZcbdJuNGsENV27NgMd5HrnvJo-G1xsVKCVlnryUeO5MZtmYTKwjjA1-K1wYU4v6cBHaab-aTUPElK7pNfSjPUYTLJVXcyFTzrcvceAkJl-gBlYksH-N0hFMYsQNd55fpbvERjxaSNPu_R4f9VMO_J6TVKKsu7Rn0S2D-W2fPN0KFhBemdyrFtdHrjl4x2LRIPVJa-Tsskc3CThZ6T1bJRCyf-A\",\"tag\":\"HKUO2q1hTVGnS53s7g7Kcw\"\x7d"

/-- Fixture token `pythonDecryptB` from src/src/__test__/compatibility.test.ts, verbatim. -/
def pythonDecryptB : String :=
  "\x7b\"ciphertext\":\"371dFRlJPJrfTvQO6MBk9L-XLDkerR1sdquw2qxjJblOgJu45RJC7P92iML9z4IcEfoqzIqFQRzLic4tGmhfM4euGswZgvs59t-gNoTN_A_uaVGpJ9oTaBeXF5biQAMTU-CR065ttMGR9_Ii-V9sbwvXfI9cAWbWQowVIyE0V1wOcTDt0eVP22v_vrBbblO6YFKkBQazdohuxRGudFcfUbDrDkV8YvSA7kTDSu5zsehKcxUXFA61PegJI4xVr53a2JZA549DS0dn19ItG-kPtCkfmzDfG3cad6DukF-_-cLetdbpL_NRYhcQHFboXrUqlyEavm6m0gHiawKhNulPec4hWj4Wdu9wqqDtVLizoH6RjsQVJox0zV6InoZfOjnKbi9RGfbIjVwEkGkc1_WSMai3U0TFTGovfZQFTMn5qf2sZZ_j-ovRHb6hnqqaONSsewnYEDha6BvUqi6JcQLfKG5IBOIbS6EfFksmADMr5NiBgmNNju71gUbX_DXd6_0nqXqEDLf26VdKpl-g0P8-4rhaZsl30pJ1rka8YZ76-fPuUrMsj4Ll6_A_kueEd6bMMLjj-Jx9PfImkH67bFisiow-mJ44fj0vyjwvQ4NAUL9WBHJuw4eRVJ-BWKZ66zgv8qxHttDHPDIYW495y7VB1pSo4ljLbMRQpt5J2lbobU2MsmksbNLeT4IMphwL_WOByUQI18kNaJ-jJAQtTGS_81JW5WbxPVEyg_pvjtefqrMEpHetgEjyIT476xjDgIIrPckS82fe27VgL1CrIWZfloQ6Nzhxb2BpzwBq8qCbZKTJxZ9qVdLoc9uJXafDz1lv857QbWIE3K5rCSXM3X9CfyNLiHCyKO1-bM7hi_CBUNEtDXZlTrhorjqcqXw_XlW5OsN5c7DKeFaSPViAkILjpkVYsDLlTMYi\",\"encrypted_key\":\"-9fIZvCcSgwdashhV1qHed13ut14dHn6skQZKRPW6IEHne9E8BFDMg\",\"header\":\x7b\"epk\":\x7b\"crv\":\"P-256\",\"kty\":\"EC\",\"x\":\"feQ-3SCI0kxyqor1vkGxeHJAY8EuFMstnYPBHRyqgcA\",\"y\":\"69hiWuqUR8xkCrr92gg5tjYFBoxESqnHa5msAR5txuM\"\x7d\x7d,\"iv\":\"4e6NXEinsBcaxBbl\",\"protected\":\"eyJhbGciOiJFQ0RILUVTK0EyNTZLVyIsImVuYyI6IkEyNTZHQ00iLCJvd25lciI6InJlY2VpdmVyIiwicmVjaXBpZW50cyI6WyJyZWNlaXZlciJdfQ\",\"tag\":\"oaBgSEv_cr9pKCDflJ-fgA\"\x7d"

/-- Fixture token `pythonDecryptAB` from src/src/__test__/compatibility.test.ts, verbatim. -/
def pythonDecryptAB : String :=
  "\x7b\"ciphertext\":\"caNbail0LsXJiEAyz6yD1HORJrapqe1-AB80OhtfH6JURAYItlPLOuokmq8pYlSuoL2SkI-61OHMLMaLgHMEnres39KlfADysd_BijdB7QxTKDTz_6Cgp2bESiIHYvq9Ub7qmZOK13rk5uFPRR-vJlXpt-idAtJUmDPCktwzDhnH8nhPDaMoxtc_YV4jll8esv79VIRiEW4XoLKxpTnY4vwgUAqck_VkOWvKFhKLAVJG2eLQa5i4mS1UOCJ5gpjVo2R26LkffJTBlM3J9MQdHKcGeKKuS7xcEPgCVQA-XymN1NReAd90fnCwnTOt9fR0dHMGy9IqbEwCu4z2JQIOSal5Q9CWVozNjUVVohYPYG1BqVdHhVkL3VGNC1tfXNS-fEUDg4q8NACppBBQlbHD_EaF5h0zpX0aa_GfNwG2GjC06pV0Wh8OcEhd7rBjhd6xoqEwCKsjFYLZGFwxX1VGdjHS4GbhYNTZjzSXZLKM-2vZUBTvpZ-6Z2G04j3m8j09h3FROnqJWe_STK-fik3lXE9bcA-0J4E2IIFhljAaPYhQ0EPbF1xpOqyKPoMx8XKkRr-MzXKD4RP2k_J69caPcXnFdqPmtdxvLwgKeenf-MR-a3XrqotLGTyXdcRk9XR8g3eAP0AI-JvIIQm_U_NCab8MVRNVnJjQWbLVzy4atTWlfLhd-vH-uQ9DWy51WrkTnLY9bDzHF0Mx2A0riANbgSxejgTtmVipYRAJhjNGVNFs2jDlph66NU9gy6K7z1crRi1D87d_jQqrvobiXmMf5dD7DUkPPGIvKNFEbWq9JLNbbP13AvR9k2-rwWJpjPuOMqQb08RjhJDMAZ_LDUu1Hj3B--Da6qFFSLino7yZS5V1WkWgsjq4OjvM31HbpbWkYkGnwwkaykMsqlz_erdb-ViCQNbP8yaA7lCx1M1opZvSUEVvq8Y\",\"iv\":\"zCwToOHugJJAnZny\",\"protected\":\"eyJhbGciOiJFQ0RILUVTK0EyNTZLVyIsImVuYyI6IkEyNTZHQ00iLCJvd25lciI6InJlY2VpdmVyIiwicmVjaXBpZW50cyI6WyJyZWNlaXZlciIsInNlbmRlciJdfQ\",\"recipients\":[\x7b\"encrypted_key\":\"aIisPIB9gm4GOVgiDTctP4r8zj2TMNgt9WcNWNZ0BdOUMohqyFmPHg\",\"header\":\x7b\"epk\":\x7b\"crv\":\"P-256\",\"kty\":\"EC\",\"x\":\"oIy4oVXzDnNTWDeZS-Q8JzDhWmrEkUDzxCJq_F3BluI\",\"y\":\"qJlzqJrbaSVWkiTWKTa0StJrlfq3KacAo-SlXgCkWqI\"\x7d\x7d\x7d,\x7b\"encrypted_key\":\"Evhnk_zTOITfl3KVAkV2HDBRuZ39cIOcvkBdTtzTtu-B1rXVh2otVQ\",\"header\":\x7b\"epk\":\x7b\"crv\":\"P-256\",\"kty\":\"EC\",\"x\":\"siMarkEyyKHGzpYAJZ6UUzBBb0eTHJktZmxis5-OAQ8\",\"y\":\"Nw45SYXhkdTqLntZjLkbnLchTD46myk4kWPRcIYB_vM\"\x7d\x7d\x7d],\"tag\":\"TxKoh7C01WmG0QFQpFBTWA\"\x7d"

/-- Fixture token `jsDecryptB` from src/src/__test__/compatibility.test.ts, verbatim. -/
def jsDecryptB : String :=
  "\x7b\"ciphertext\":\"bZlgs-8XeAzjHiWbcydItX88Vw8vKDH8z7aSUL1oQRPkTiE12WnehTmpTLIGMtKSKvMvSnF4-NZJ4WErMzRM7u8tMcPkbTHuOsK5ElR-4Y4JlgMt-tpI1CtekL6pHZj4K4rfBQH7kxUHtcbuOxSxPjHgQ4vR7lBNRcFxBdJJ4oCyn4JlCkY5DjZjr57KYCfuhnluau5ThZbvh5LvMYzg9btmJc_xTiLkD2GoxYwdULqt6EGRGkr6wUnkNM_MmK-7OaXOSLPRbGtFpslui7wyxXQhUijSPUhltaBbSzQx9-Ofb5GHNz93gSSVQSu3bFebINDfMrPTMcp7yruq-a08t0NWiHoF-TqHxexhOzZ_RPdzHLnmK_W0LEJxhZvHwcldIdPIc25Pab2QRxr7ypO6IktDVRLj4ac2oJ4AatvwCqAV70Jc_NL5AGurjSLNUMV0GHw7QAqy4eyQBO2HPxnl5n7mGupPAsWfhoxOpRauxU1-PQDqOKZmKfafSm907_nTnHHaeQPrY8OwbJGZl3EHzZJEHE2hBVmQVmZgdK8FLF4nuPxWD2Z2mEOzGcWUtBvuo7gYgUoueNdOI5CAOJMKJXrSihwJMETcHwuTt6PrfTvWinsy3y5S-uQkkxGN5EkCXuzrSGp9Oak2bpurz5ezUKnL1IYmo9m7wC52O7kW0IGJ6B-URr8XHisXXrTrX9SoEOb11Tz5XnGPJP27KJKp1ydrgQLsvUzWz9o1QdJK-lEqigj0CIgmx_UTVuNBRZuz5UAe2mJQ0yhpLGJVyzGJjTwW_5_ZZxXv9S5Qr8oVi7h-dMENqdCuxJPD9dBMR5iFE3kFior98hNRs5C0CokOfmpfLpJXqBjs2a9H5PXSU5UGeUj6_jPjmFldcRga63T4vkV8N3e-Pg5UKEIYzQBQJ22WPbVKlCBuzjh3dmfM\",\"iv\":\"9hIFX0Nc-WOnz124\",\"recipients\":[\x7b\"encrypted_key\":\"747LVKTbu6zRNSgQhAzIVIjwvE-fiUzk5Jvbe6Qg84Hzc87_UlUQaw\",\"header\":\x7b\"alg\":\"ECDH-ES+A256KW\"\x7d\x7d],\"tag\":\"hmb-Aezjbwuqc8nusvJCgQ\",\"protected\":\"eyJlbmMiOiJBMjU2R0NNIiwicmVjaXBpZW50cyI6WyJyZWNlaXZlciJdLCJvd25lciI6InJlY2VpdmVyIiwiZXBrIjp7IngiOiJRT2Jpd09OVTZTeTRleUVsWlJXSEtmd2t4U2liSS1rejBLUjhTdVc3N3g0IiwiY3J2IjoiUC0yNTYiLCJrdHkiOiJFQyIsInkiOiIxZmdXM1k5QnFVb1Q5NU9nVkpCM0ktWUFHd1czaDM3N1ZNV0NneVNBaTNBIn19\"\x7d"

/-- Fixture token `jsDecryptAB` from src/src/__test__/compatibility.test.ts, verbatim. -/
def jsDecryptAB : String :=
  "\x7b\"ciphertext\":\"5N8_RLJ-LqeHveNGvgixFi0YNsIwspTaFGRIUOkIqI8fKri1mS3fcXYgDZBvo4KfuueuILFMXsnRzzfWtfkK28wUekzpw33p4OvRneuKI_5xN6k95PP8-iZ8Dj3fwaKooiiWnHAZXZ_9Pyd_Vp1svJli_5MtQL6dAyIFWEGMI23TOHIlv4Y_WIoqzTMr8p8Ngsa1valCipNJXdpi_IcPrj8c8vNCRdxkjli5BiotBAxOPb1dkm4rygRTXe5r48yaQ41I8Sn0lYcUL1f833wHT5dBZcy6dnkVbxXzKjpCRzqzxK3WLbu1buF1MiNVzQfVWi3NPRCF2MkJvW8z6qULTc_cREOQmoRCdORN8X0xv0ySCy7x-b2kqlJXp1cX7oCpPtst8JrEHu6KN2R3glgHXaqazH4EJr3uTXgtqTmL4oaxDoFc0dpHfA4X4tvF3MBdWzib8ExAeUkRGEjaWf98fx6Mnc8NiePRUfdISyaoiUU_Kx5yOkRdKznJugLdc9T3IrAyQlKa0Z4XDuRkjdlDL0B7vf5ijZRccp8iG7ugwBZbYSdSElmzUwjI9r08eSXUYDK2u6RV3yYENwhky-ZRn42ugHrX0DYjNOB1eflrp_JQ-DANExG5cnb9uouKXoIUjbvoRGJVtXde9oKKGMN7XkiNBmn2vgmfuu9z-u59tUCEgMP8rKmUEBWR4AL3pW8V4K6XLpNRFB0flXZy4xbh5VWWfZfQvSOXEkjpDQedBoACPXroY1zkfI2eGegxwwl-gplQk1nHSSd24bMh07yWZWQBOJJBJN1DUQUjfaW75rvmZnDupadS-Hbzbdvd7mu4FopRECuQh3twHvYh7wa6K6UcQG9a6gM71jo8vDASNY48nDJVDU9rCwiyNYdea1LFfBkfvgadsREaIs_WzN7ndz3VCoRNrCCZNtL48ZkAnTWaVhkXb0BjM8LIuWmh\",\"iv\":\"UhExTANI5WfvWz9Q\",\"recipients\":[\x7b\"encrypted_key\":\"bSzBVL-v5gDy_kldRKC4CsdyoTudd-a1jkUOGGd0DWRURI0LKmFuCg\",\"header\":\x7b\"alg\":\"ECDH-ES+A256KW\",\"epk\":\x7b\"x\":\"lwaGgrNt7j6G7ZYUs62xSxK9GypRdSUWTMGCzeUEHoI\",\"crv\":\"P-256\",\"kty\":\"EC\",\"y\":\"JkYhU-avgsLxNWy2qddcwggph4ImCqNTvXutCHq81cg\"\x7d\x7d\x7d,\x7b\"encrypted_key\":\"oXLukazxtuxXN5FfvIOtVsH21ul-4RzhEfyPHNchNI5qHKSHjK7-HA\",\"header\":\x7b\"alg\":\"ECDH-ES+A256KW\",\"epk\":\x7b\"x\":\"dsHx4hcFu7yLJLTJLmTvebnk7nua_oWKAu6LXewVWpo\",\"crv\":\"P-256\",\"kty\":\"EC\",\"y\":\"r3G8A8XCR3bhK5kdoOvqvlCOiGtGQqQlU0gF50St_5M\"\x7d\x7d\x7d],\"tag\":\"tO_69F0pamJCuC6EeMq_cg\",\"protected\":\"eyJlbmMiOiJBMjU2R0NNIiwicmVjaXBpZW50cyI6WyJzZW5kZXIiLCJyZWNlaXZlciJdLCJvd25lciI6InJlY2VpdmVyIn0\"\x7d"

/-- Modelled from the spec (§8, scenarios S1-S6): the test user `sender`
(id "sender", key pair A, flagged monitor by the tests) as a RemoteUser;
`src/user` and `TestKeys` are not under src/, key material is an opaque
handle. -/
def senderUser : RemoteUser := ⟨"sender", "pubA", true⟩

/-- Modelled from the spec (§8): the test user `receiver` (id "receiver",
key pair B, not a monitor) as a RemoteUser. -/
def receiverUser : RemoteUser := ⟨"receiver", "pubB", false⟩

/-- Modelled from the spec (§8): the decrypting `sender`
AuthenticatedUser. -/
def senderAuth : AuthenticatedUser := ⟨"sender", "privA"⟩

/-- Modelled from the spec (§8): the decrypting `receiver`
AuthenticatedUser. -/
def receiverAuth : AuthenticatedUser := ⟨"receiver", "privB"⟩

/-- Modelled from the spec (§8): the resolver produced by
`createFetchSender([sender, receiver])` (src/utils/fetchSender.ts is not
under src/): it maps "sender" and "receiver" to the two test users. -/
def testFetchUser : String → Except String RemoteUser :=
  fun s =>
    if s = "sender" then .ok senderUser
    else if s = "receiver" then .ok receiverUser
    else .error "Unknown user"

/-- The protected-header fields read by decrypt, base64url-decoded from
the `protected` field of `goDecryptB`:
`enc "A256GCM"`, `owner "receiver"`, `recipients ["receiver"]`. -/
def goBPh : ProtectedHeader := ⟨"A256GCM", none, "receiver", ["receiver"]⟩

/-- Decoded from the `protected` field of `goDecryptAB`:
`owner "receiver"`, `recipients ["receiver", "sender"]`. -/
def goABPh : ProtectedHeader := ⟨"A256GCM", none, "receiver", ["receiver", "sender"]⟩

/-- Decoded from the `protected` field of `pythonDecryptB`:
`owner "receiver"`, `recipients ["receiver"]`. -/
def pyBPh : ProtectedHeader := ⟨"A256GCM", none, "receiver", ["receiver"]⟩

/-- Decoded from the `protected` field of `pythonDecryptAB`:
`owner "receiver"`, `recipients ["receiver", "sender"]`. -/
def pyABPh : ProtectedHeader := ⟨"A256GCM", none, "receiver", ["receiver", "sender"]⟩

/-- Decoded from the `protected` field of `jsDecryptB`:
`owner "receiver"`, `recipients ["receiver"]`. -/
def jsBPh : ProtectedHeader := ⟨"A256GCM", none, "receiver", ["receiver"]⟩

/-- Decoded from the `protected` field of `jsDecryptAB`:
`owner "receiver"`, `recipients ["sender", "receiver"]`. -/
def jsABPh : ProtectedHeader := ⟨"A256GCM", none, "receiver", ["sender", "receiver"]⟩

/-- Modelled from the spec: the oracle outcomes of one decryption of
`token` by `d` in which every cryptographic step succeeds — the JWE
AEAD-decrypts to a plaintext carrying the SharedLog `sl` under the
protected header `ph`, both inner JWS signatures verify, and the payloads
parse to `sl` and `al` (the spec's S1-S6 assert that the sibling
implementations produced such tokens; the crypto itself is external). -/
def RunsHappy (env : Env) (token : String) (d : AuthenticatedUser)
    (fetchUser : String → Except String RemoteUser) (ph : ProtectedHeader)
    (sl : SharedLog) (al : AccessLog) : Prop :=
  ∃ o pt jwsS creator monitor vp ap,
    env.jsonParse token = .ok o ∧
    env.generalDecrypt (normalizeJwe o) d.decryptionKey = .ok ⟨pt, some ph⟩ ∧
    env.parseFlattenedJws pt = .ok jwsS ∧
    env.sharedLogFromJson (env.atobDecode jwsS.payload) = .ok sl ∧
    fetchUser sl.creator = .ok creator ∧
    env.flattenedVerify jwsS creator.verificationCertificate = .ok vp ∧
    env.sharedLogFromBytes vp = .ok sl ∧
    env.accessLogFromJson (env.atobDecode sl.log.payload) = .ok al ∧
    fetchUser al.monitor = .ok monitor ∧
    monitor.isMonitor = true ∧
    env.flattenedVerify sl.log monitor.verificationCertificate = .ok ap ∧
    env.accessLogFromBytes ap = .ok al

/-- A run in which every oracle stage succeeds and the cross-layer data
agree decrypts to the SignedLog wrapping the verified AccessLog JWS, and
extract recovers the AccessLog. -/
theorem decrypt_happy (env : Env) (token : String) (d : AuthenticatedUser)
    (fetchUser : String → Except String RemoteUser) (ph : ProtectedHeader)
    (sl : SharedLog) (al : AccessLog)
    (hrun : RunsHappy env token d fetchUser ph sl al)
    (h1 : jsArrayToString sl.recipients = jsArrayToString ph.recipients)
    (h2 : d.id ∈ sl.recipients)
    (h3 : al.owner = ph.owner)
    (h4 : sl.creator = al.monitor ∨ sl.creator = al.owner)
    (h5 : sl.creator = al.monitor → sl.recipients = [al.owner]) :
    decrypt env token d fetchUser = .ok ⟨sl.log⟩ ∧
    SignedLog.extract env ⟨sl.log⟩ = .ok al := by
  obtain ⟨o, pt, jwsS, cu, mu, vp, ap, e1, e2, e3, e4, e5, e6, e7, e8, e9, e10, e11, e12⟩ :=
    hrun
  have hcc : claimedCreator env jwsS = .ok sl.creator := by
    simp only [claimedCreator, e4, except_ok_bind]
    rfl
  have hvs : verifySharedLog env jwsS cu = .ok sl := by
    unfold verifySharedLog
    rw [e6]
    show (match env.sharedLogFromBytes vp with
      | .ok sl => (.ok sl : Except String SharedLog)
      | .error _ => .error "Could not verify SharedLog.") = .ok sl
    rw [e7]
  have hcm : claimedMonitor env sl.log = .ok al.monitor := by
    simp only [claimedMonitor, e8, except_ok_bind]
    rfl
  have hva : verifyAccessLog env sl.log mu = .ok al := by
    unfold verifyAccessLog
    rw [if_neg (by simp [e10]), e11]
    show (match env.accessLogFromBytes ap with
      | .ok al => (.ok al : Except String AccessLog)
      | .error _ => .error "Could not verify AccessLog.") = .ok al
    rw [e12]
  have hreach : ReachesCrossLayer env token d fetchUser ⟨pt, some ph⟩ sl al :=
    ⟨o, jwsS, sl.creator, cu, al.monitor, mu, e1, e2, e3, hcc, e5, hvs, hcm, e9, hva⟩
  refine ⟨?_, ?_⟩
  · rw [decrypt_eq_crossLayerChecks hreach]
    exact clc_ok rfl h1 h2 h3 h4 h5
  · unfold SignedLog.extract
    exact e8

/-- A single-recipient fixture run: creator is the monitor "sender",
recipients are exactly `["receiver"]`, decrypted by the receiver. -/
theorem fixtureB_run (env : Env) (token : String) (ph : ProtectedHeader)
    (sl : SharedLog) (al : AccessLog)
    (hpho : ph.owner = "receiver") (hphr : ph.recipients = ["receiver"])
    (hrun : RunsHappy env token receiverAuth testFetchUser ph sl al)
    (hc : sl.creator = "sender") (hr : sl.recipients = ["receiver"])
    (hm : al.monitor = "sender") (ho : al.owner = "receiver") :
    decrypt env token receiverAuth testFetchUser = .ok ⟨sl.log⟩ ∧
    SignedLog.extract env ⟨sl.log⟩ = .ok al :=
  decrypt_happy env token receiverAuth testFetchUser ph sl al hrun
    (by rw [hr, hphr]) (by rw [hr]; decide) (ho.trans hpho.symm)
    (Or.inl (hc.trans hm.symm)) (fun _ => by rw [hr, ho])

/-- A two-recipient fixture run: creator is the owner "receiver", the
SharedLog recipients equal the header recipients, decrypted by a user
listed among them. -/
theorem fixtureAB_run (env : Env) (token : String) (d : AuthenticatedUser)
    (ph : ProtectedHeader) (sl : SharedLog) (al : AccessLog)
    (hpho : ph.owner = "receiver")
    (hrun : RunsHappy env token d testFetchUser ph sl al)
    (hc : sl.creator = "receiver") (hr : sl.recipients = ph.recipients)
    (hmem : d.id ∈ sl.recipients)
    (hm : al.monitor = "sender") (ho : al.owner = "receiver") :
    decrypt env token d testFetchUser = .ok ⟨sl.log⟩ ∧
    SignedLog.extract env ⟨sl.log⟩ = .ok al :=
  decrypt_happy env token d testFetchUser ph sl al hrun
    (by rw [hr]) hmem (ho.trans hpho.symm) (Or.inr (hc.trans ho.symm))
    (fun h => absurd (hc.symm.trans (h.trans hm)) (by decide))

/-- C7: for each of the six literal fixture tokens, decrypting with the
designated decrypter(s) — receiver for the single-recipient tokens,
sender then receiver for the two-recipient tokens — under the fixed test
users and the resolver mapping "sender" and "receiver" succeeds, and
extract() on the returned SignedLog yields an AccessLog whose
justification equals 'go-it-crypto', 'py-it-crypto' or 'js-it-crypto'
respectively.  The cryptographic stage outcomes are hypotheses
(`RunsHappy`, modelled from the spec's S1-S6 compatibility assertions);
the protected-header data are the decoded fixture headers, and the
decryption state machine is verified to accept every run. -/
theorem compatibility_fixtures
    (env : Env)
    (slGoB slGoAB slPyB slPyAB slJsB slJsAB : SharedLog)
    (alGoB alGoAB alPyB alPyAB alJsB alJsAB : AccessLog)
    (hGoB : RunsHappy env goDecryptB receiverAuth testFetchUser goBPh slGoB alGoB)
    (hGoBc : slGoB.creator = "sender") (hGoBr : slGoB.recipients = ["receiver"])
    (hGoBm : alGoB.monitor = "sender") (hGoBo : alGoB.owner = "receiver")
    (hGoBj : alGoB.justification = "go-it-crypto")
    (hGoABs : RunsHappy env goDecryptAB senderAuth testFetchUser goABPh slGoAB alGoAB)
    (hGoABr2 : RunsHappy env goDecryptAB receiverAuth testFetchUser goABPh slGoAB alGoAB)
    (hGoABc : slGoAB.creator = "receiver")
    (hGoABr : slGoAB.recipients = ["receiver", "sender"])
    (hGoABm : alGoAB.monitor = "sender") (hGoABo : alGoAB.owner = "receiver")
    (hGoABj : alGoAB.justification = "go-it-crypto")
    (hPyB : RunsHappy env pythonDecryptB receiverAuth testFetchUser pyBPh slPyB alPyB)
    (hPyBc : slPyB.creator = "sender") (hPyBr : slPyB.recipients = ["receiver"])
    (hPyBm : alPyB.monitor = "sender") (hPyBo : alPyB.owner = "receiver")
    (hPyBj : alPyB.justification = "py-it-crypto")
    (hPyABs : RunsHappy env pythonDecryptAB senderAuth testFetchUser pyABPh slPyAB alPyAB)
    (hPyABr2 : RunsHappy env pythonDecryptAB receiverAuth testFetchUser pyABPh slPyAB alPyAB)
    (hPyABc : slPyAB.creator = "receiver")
    (hPyABr : slPyAB.recipients = ["receiver", "sender"])
    (hPyABm : alPyAB.monitor = "sender") (hPyABo : alPyAB.owner = "receiver")
    (hPyABj : alPyAB.justification = "py-it-crypto")
    (hJsB : RunsHappy env jsDecryptB receiverAuth testFetchUser jsBPh slJsB alJsB)
    (hJsBc : slJsB.creator = "sender") (hJsBr : slJsB.recipients = ["receiver"])
    (hJsBm : alJsB.monitor = "sender") (hJsBo : alJsB.owner = "receiver")
    (hJsBj : alJsB.justification = "js-it-crypto")
    (hJsABs : RunsHappy env jsDecryptAB senderAuth testFetchUser jsABPh slJsAB alJsAB)
    (hJsABr2 : RunsHappy env jsDecryptAB receiverAuth testFetchUser jsABPh slJsAB alJsAB)
    (hJsABc : slJsAB.creator = "receiver")
    (hJsABr : slJsAB.recipients = ["sender", "receiver"])
    (hJsABm : alJsAB.monitor = "sender") (hJsABo : alJsAB.owner = "receiver")
    (hJsABj : alJsAB.justification = "js-it-crypto") :
    (decrypt env goDecryptB receiverAuth testFetchUser = .ok ⟨slGoB.log⟩ ∧
      SignedLog.extract env ⟨slGoB.log⟩ = .ok alGoB ∧
      alGoB.justification = "go-it-crypto") ∧
    (decrypt env goDecryptAB senderAuth testFetchUser = .ok ⟨slGoAB.log⟩ ∧
      decrypt env goDecryptAB receiverAuth testFetchUser = .ok ⟨slGoAB.log⟩ ∧
      SignedLog.extract env ⟨slGoAB.log⟩ = .ok alGoAB ∧
      alGoAB.justification = "go-it-crypto") ∧
    (decrypt env pythonDecryptB receiverAuth testFetchUser = .ok ⟨slPyB.log⟩ ∧
      SignedLog.extract env ⟨slPyB.log⟩ = .ok alPyB ∧
      alPyB.justification = "py-it-crypto") ∧
    (decrypt env pythonDecryptAB senderAuth testFetchUser = .ok ⟨slPyAB.log⟩ ∧
      decrypt env pythonDecryptAB receiverAuth testFetchUser = .ok ⟨slPyAB.log⟩ ∧
      SignedLog.extract env ⟨slPyAB.log⟩ = .ok alPyAB ∧
      alPyAB.justification = "py-it-crypto") ∧
    (decrypt env jsDecryptB receiverAuth testFetchUser = .ok ⟨slJsB.log⟩ ∧
      SignedLog.extract env ⟨slJsB.log⟩ = .ok alJsB ∧
      alJsB.justification = "js-it-crypto") ∧
    (decrypt env jsDecryptAB senderAuth testFetchUser = .ok ⟨slJsAB.log⟩ ∧
      decrypt env jsDecryptAB receiverAuth testFetchUser = .ok ⟨slJsAB.log⟩ ∧
      SignedLog.extract env ⟨slJsAB.log⟩ = .ok alJsAB ∧
      alJsAB.justification = "js-it-crypto") := by
  have hgo := fixtureB_run env goDecryptB goBPh slGoB alGoB rfl rfl hGoB hGoBc hGoBr
    hGoBm hGoBo
  have hgoS := fixtureAB_run env goDecryptAB senderAuth goABPh slGoAB alGoAB rfl hGoABs
    hGoABc (by rw [hGoABr]; rfl) (by rw [hGoABr]; decide) hGoABm hGoABo
  have hgoR := fixtureAB_run env goDecryptAB receiverAuth goABPh slGoAB alGoAB rfl hGoABr2
    hGoABc (by rw [hGoABr]; rfl) (by rw [hGoABr]; decide) hGoABm hGoABo
  have hpy := fixtureB_run env pythonDecryptB pyBPh slPyB alPyB rfl rfl hPyB hPyBc hPyBr
    hPyBm hPyBo
  have hpyS := fixtureAB_run env pythonDecryptAB senderAuth pyABPh slPyAB alPyAB rfl hPyABs
    hPyABc (by rw [hPyABr]; rfl) (by rw [hPyABr]; decide) hPyABm hPyABo
  have hpyR := fixtureAB_run env pythonDecryptAB receiverAuth pyABPh slPyAB alPyAB rfl
    hPyABr2 hPyABc (by rw [hPyABr]; rfl) (by rw [hPyABr]; decide) hPyABm hPyABo
  have hjs := fixtureB_run env jsDecryptB jsBPh slJsB alJsB rfl rfl hJsB hJsBc hJsBr
    hJsBm hJsBo
  have hjsS := fixtureAB_run env jsDecryptAB senderAuth jsABPh slJsAB alJsAB rfl hJsABs
    hJsABc (by rw [hJsABr]; rfl) (by rw [hJsABr]; decide) hJsABm hJsABo
  have hjsR := fixtureAB_run env jsDecryptAB receiverAuth jsABPh slJsAB alJsAB rfl hJsABr2
    hJsABc (by rw [hJsABr]; rfl) (by rw [hJsABr]; decide) hJsABm hJsABo
  exact ⟨⟨hgo.1, hgo.2, hGoBj⟩, ⟨hgoS.1, hgoR.1, hgoS.2, hGoABj⟩,
    ⟨hpy.1, hpy.2, hPyBj⟩, ⟨hpyS.1, hpyR.1, hpyS.2, hPyABj⟩,
    ⟨hjs.1, hjs.2, hJsBj⟩, ⟨hjsS.1, hjsR.1, hjsS.2, hJsABj⟩⟩

def wAlGo : AccessLog := ⟨"sender", "receiver", "tool", "go-it-crypto", 30, "kind", ["email"], "ag"⟩

def wAlPy : AccessLog := ⟨"sender", "receiver", "tool", "py-it-crypto", 30, "kind", ["email"], "ap"⟩

def wAlJs : AccessLog := ⟨"sender", "receiver", "tool", "js-it-crypto", 30, "kind", ["email"], "aj"⟩

def wSlGoB : SharedLog := ⟨⟨"alGo", "p", "s"⟩, "sender", "receiver", ["receiver"], "s1"⟩

def wSlGoAB : SharedLog := ⟨⟨"alGo", "p", "s"⟩, "receiver", "receiver", ["receiver", "sender"], "s2"⟩

def wSlPyB : SharedLog := ⟨⟨"alPy", "p", "s"⟩, "sender", "receiver", ["receiver"], "s3"⟩

def wSlPyAB : SharedLog := ⟨⟨"alPy", "p", "s"⟩, "receiver", "receiver", ["receiver", "sender"], "s4"⟩

def wSlJsB : SharedLog := ⟨⟨"alJs", "p", "s"⟩, "sender", "receiver", ["receiver"], "s5"⟩

def wSlJsAB : SharedLog := ⟨⟨"alJs", "p", "s"⟩, "receiver", "receiver", ["sender", "receiver"], "s6"⟩

def wSlOf (s : String) : Except String SharedLog :=
  if s = "ptGoB" then .ok wSlGoB
  else if s = "ptGoAB" then .ok wSlGoAB
  else if s = "ptPyB" then .ok wSlPyB
  else if s = "ptPyAB" then .ok wSlPyAB
  else if s = "ptJsB" then .ok wSlJsB
  else if s = "ptJsAB" then .ok wSlJsAB
  else .error "no shared log"

def wAlOf (s : String) : Except String AccessLog :=
  if s = "alGo" then .ok wAlGo
  else if s = "alPy" then .ok wAlPy
  else if s = "alJs" then .ok wAlJs
  else .error "no access log"

/-- The first eighteen characters of a token, enough to tell the six
fixture tokens apart. -/
def tokTag (s : String) : String := String.mk (s.data.take 18)

def wGeneralDecrypt (o : JsVal) (k : String) : Except String GeneralDecryptResult :=
  match o.getField "tok" with
  | .str s =>
      if s = "\x7b\"protected\":\"eyJh" then .ok ⟨"ptGoB", some goBPh⟩
      else if s = "\x7b\"protected\":\"eyJl" then .ok ⟨"ptGoAB", some goABPh⟩
      else if s = "\x7b\"ciphertext\":\"371" then .ok ⟨"ptPyB", some pyBPh⟩
      else if s = "\x7b\"ciphertext\":\"caN" then .ok ⟨"ptPyAB", some pyABPh⟩
      else if s = "\x7b\"ciphertext\":\"bZl" then .ok ⟨"ptJsB", some jsBPh⟩
      else if s = "\x7b\"ciphertext\":\"5N8" then .ok ⟨"ptJsAB", some jsABPh⟩
      else .error (String.append "cannot decrypt" k)
  | _ => .error "no token"

/-- A concrete environment whose oracles realise the nine fixture runs. -/
def wEnvC7 : Env where
  jsonParse := fun s => .ok (.obj [("tok", .str (tokTag s))])
  generalDecrypt := wGeneralDecrypt
  parseFlattenedJws := fun pt => .ok ⟨pt, "pr", "sg"⟩
  atobDecode := fun s => s
  sharedLogFromJson := wSlOf
  sharedLogFromBytes := wSlOf
  accessLogFromJson := wAlOf
  accessLogFromBytes := wAlOf
  flattenedVerify := fun j _ => .ok j.payload

set_option maxRecDepth 4000

theorem wRunsGoB : RunsHappy wEnvC7 goDecryptB receiverAuth testFetchUser goBPh wSlGoB wAlGo :=
  ⟨.obj [("tok", .str (tokTag goDecryptB))], "ptGoB", ⟨"ptGoB", "pr", "sg"⟩, senderUser, senderUser,
    "ptGoB", "alGo", rfl, rfl, rfl, rfl, rfl, rfl, rfl, rfl, rfl, rfl, rfl, rfl⟩

theorem wRunsGoABs : RunsHappy wEnvC7 goDecryptAB senderAuth testFetchUser goABPh wSlGoAB wAlGo :=
  ⟨.obj [("tok", .str (tokTag goDecryptAB))], "ptGoAB", ⟨"ptGoAB", "pr", "sg"⟩, receiverUser, senderUser,
    "ptGoAB", "alGo", rfl, rfl, rfl, rfl, rfl, rfl, rfl, rfl, rfl, rfl, rfl, rfl⟩

theorem wRunsGoABr : RunsHappy wEnvC7 goDecryptAB receiverAuth testFetchUser goABPh wSlGoAB wAlGo :=
  ⟨.obj [("tok", .str (tokTag goDecryptAB))], "ptGoAB", ⟨"ptGoAB", "pr", "sg"⟩, receiverUser, senderUser,
    "ptGoAB", "alGo", rfl, rfl, rfl, rfl, rfl, rfl, rfl, rfl, rfl, rfl, rfl, rfl⟩

theorem wRunsPyB : RunsHappy wEnvC7 pythonDecryptB receiverAuth testFetchUser pyBPh wSlPyB wAlPy :=
  ⟨.obj [("tok", .str (tokTag pythonDecryptB))], "ptPyB", ⟨"ptPyB", "pr", "sg"⟩, senderUser, senderUser,
    "ptPyB", "alPy", rfl, rfl, rfl, rfl, rfl, rfl, rfl, rfl, rfl, rfl, rfl, rfl⟩

theorem wRunsPyABs : RunsHappy wEnvC7 pythonDecryptAB senderAuth testFetchUser pyABPh wSlPyAB wAlPy :=
  ⟨.obj [("tok", .str (tokTag pythonDecryptAB))], "ptPyAB", ⟨"ptPyAB", "pr", "sg"⟩, receiverUser, senderUser,
    "ptPyAB", "alPy", rfl, rfl, rfl, rfl, rfl, rfl, rfl, rfl, rfl, rfl, rfl, rfl⟩

theorem wRunsPyABr : RunsHappy wEnvC7 pythonDecryptAB receiverAuth testFetchUser pyABPh wSlPyAB wAlPy :=
  ⟨.obj [("tok", .str (tokTag pythonDecryptAB))], "ptPyAB", ⟨"ptPyAB", "pr", "sg"⟩, receiverUser, senderUser,
    "ptPyAB", "alPy", rfl, rfl, rfl, rfl, rfl, rfl, rfl, rfl, rfl, rfl, rfl, rfl⟩

theorem wRunsJsB : RunsHappy wEnvC7 jsDecryptB receiverAuth testFetchUser jsBPh wSlJsB wAlJs :=
  ⟨.obj [("tok", .str (tokTag jsDecryptB))], "ptJsB", ⟨"ptJsB", "pr", "sg"⟩, senderUser, senderUser,
    "ptJsB", "alJs", rfl, rfl, rfl, rfl, rfl, rfl, rfl, rfl, rfl, rfl, rfl, rfl⟩

theorem wRunsJsABs : RunsHappy wEnvC7 jsDecryptAB senderAuth testFetchUser jsABPh wSlJsAB wAlJs :=
  ⟨.obj [("tok", .str (tokTag jsDecryptAB))], "ptJsAB", ⟨"ptJsAB", "pr", "sg"⟩, receiverUser, senderUser,
    "ptJsAB", "alJs", rfl, rfl, rfl, rfl, rfl, rfl, rfl, rfl, rfl, rfl, rfl, rfl⟩

theorem wRunsJsABr : RunsHappy wEnvC7 jsDecryptAB receiverAuth testFetchUser jsABPh wSlJsAB wAlJs :=
  ⟨.obj [("tok", .str (tokTag jsDecryptAB))], "ptJsAB", ⟨"ptJsAB", "pr", "sg"⟩, receiverUser, senderUser,
    "ptJsAB", "alJs", rfl, rfl, rfl, rfl, rfl, rfl, rfl, rfl, rfl, rfl, rfl, rfl⟩

/-- Witness instantiating the C7 theorem on a concrete environment
realising all nine fixture decryptions. -/
theorem compatibility_fixtures_witness :
    (decrypt wEnvC7 goDecryptB receiverAuth testFetchUser = .ok ⟨wSlGoB.log⟩ ∧
      SignedLog.extract wEnvC7 ⟨wSlGoB.log⟩ = .ok wAlGo ∧
      wAlGo.justification = "go-it-crypto") ∧
    (decrypt wEnvC7 goDecryptAB senderAuth testFetchUser = .ok ⟨wSlGoAB.log⟩ ∧
      decrypt wEnvC7 goDecryptAB receiverAuth testFetchUser = .ok ⟨wSlGoAB.log⟩ ∧
      SignedLog.extract wEnvC7 ⟨wSlGoAB.log⟩ = .ok wAlGo ∧
      wAlGo.justification = "go-it-crypto") ∧
    (decrypt wEnvC7 pythonDecryptB receiverAuth testFetchUser = .ok ⟨wSlPyB.log⟩ ∧
      SignedLog.extract wEnvC7 ⟨wSlPyB.log⟩ = .ok wAlPy ∧
      wAlPy.justification = "py-it-crypto") ∧
    (decrypt wEnvC7 pythonDecryptAB senderAuth testFetchUser = .ok ⟨wSlPyAB.log⟩ ∧
      decrypt wEnvC7 pythonDecryptAB receiverAuth testFetchUser = .ok ⟨wSlPyAB.log⟩ ∧
      SignedLog.extract wEnvC7 ⟨wSlPyAB.log⟩ = .ok wAlPy ∧
      wAlPy.justification = "py-it-crypto") ∧
    (decrypt wEnvC7 jsDecryptB receiverAuth testFetchUser = .ok ⟨wSlJsB.log⟩ ∧
      SignedLog.extract wEnvC7 ⟨wSlJsB.log⟩ = .ok wAlJs ∧
      wAlJs.justification = "js-it-crypto") ∧
    (decrypt wEnvC7 jsDecryptAB senderAuth testFetchUser = .ok ⟨wSlJsAB.log⟩ ∧
      decrypt wEnvC7 jsDecryptAB receiverAuth testFetchUser = .ok ⟨wSlJsAB.log⟩ ∧
      SignedLog.extract wEnvC7 ⟨wSlJsAB.log⟩ = .ok wAlJs ∧
      wAlJs.justification = "js-it-crypto") :=
  compatibility_fixtures wEnvC7 wSlGoB wSlGoAB wSlPyB wSlPyAB wSlJsB wSlJsAB
    wAlGo wAlGo wAlPy wAlPy wAlJs wAlJs
    wRunsGoB rfl rfl rfl rfl rfl
    wRunsGoABs wRunsGoABr rfl rfl rfl rfl rfl
    wRunsPyB rfl rfl rfl rfl rfl
    wRunsPyABs wRunsPyABr rfl rfl rfl rfl rfl
    wRunsJsB rfl rfl rfl rfl rfl
    wRunsJsABs wRunsJsABr rfl rfl rfl rfl rfl
